import Mathlib

/-!
# MyDX11_Game_Practice_002: a shallow embedding of `main.cpp`

The program opens a window, initialises Direct3D 11, builds a small pipeline
(two shader stages, an input layout, one vertex buffer holding a triangle, one
constant buffer holding three matrices) and renders the triangle every idle
iteration of the message loop, rotated about the Y axis by the elapsed time.

Conventions of the embedding.

* `float` values are scalars of an ordered field `K`; the transcendental
  routines of the math library (`XMScalarSinCos`, `sqrtf`, the constant
  `XM_PI`) are the fields of a `ScalarMath K` record, so that every definition
  is an ordinary executable function.  The theorems about real numbers are
  stated at `K = ℝ` with `realMath`.
* COM smart pointers are `Option Handle` (`none` is `nullptr`).
* Calls into the operating system and the graphics driver are answered by an
  explicit `Driver` record; every call made is appended to a trace.
* Machine integers are natural numbers or integers with explicit reduction
  modulo the word size.
-/

namespace DX11

/-! ## Scalars, vectors and matrices (DirectXMath) -/

/-- The scalar routines of the math library that are not field operations. -/
structure ScalarMath (K : Type) where
  /-- Sine, the first output of `XMScalarSinCos`. -/
  sin : K → K
  /-- Cosine, the second output of `XMScalarSinCos`. -/
  cos : K → K
  /-- Square root, `sqrtf`. -/
  sqrt : K → K
  /-- The constant `XM_PI`. -/
  pi : K

/-- The scalar routines over the real numbers. -/
noncomputable def realMath : ScalarMath ℝ :=
  ⟨Real.sin, Real.cos, Real.sqrt, Real.pi⟩

/-- `XMVECTOR`: four scalar lanes x, y, z, w. -/
abbrev XMVECTOR (K : Type) := Fin 4 → K

/-- `XMMATRIX`: four row vectors `r[0..3]`; entry `M i j` is `m[i][j]`. -/
abbrev XMMATRIX (K : Type) := Matrix (Fin 4) (Fin 4) K

/-- `XMFLOAT3`: three packed floats. -/
structure XMFLOAT3 (K : Type) where
  x : K
  y : K
  z : K

/-- `XMFLOAT4`: four packed floats. -/
structure XMFLOAT4 (K : Type) where
  x : K
  y : K
  z : K
  w : K

section Math

variable {K : Type} [LinearOrderedField K]

/-- `XMVectorSet(x, y, z, w)`. -/
def XMVectorSet (x y z w : K) : XMVECTOR K := ![x, y, z, w]

/-- `XMVectorSubtract(V1, V2)`, lane by lane. -/
def XMVectorSubtract (V1 V2 : XMVECTOR K) : XMVECTOR K := fun i => V1 i - V2 i

/-- `XMVectorNegate(V)`, lane by lane. -/
def XMVectorNegate (V : XMVECTOR K) : XMVECTOR K := fun i => - V i

/-- `XMVector3Dot(V1, V2)`: the dot product of the x, y, z lanes, replicated
into every lane. -/
def XMVector3Dot (V1 V2 : XMVECTOR K) : XMVECTOR K :=
  fun _ => V1 0 * V2 0 + V1 1 * V2 1 + V1 2 * V2 2

/-- `XMVector3Cross(V1, V2)`: the cross product in x, y, z and 0 in w. -/
def XMVector3Cross (V1 V2 : XMVECTOR K) : XMVECTOR K :=
  ![V1 1 * V2 2 - V1 2 * V2 1,
    V1 2 * V2 0 - V1 0 * V2 2,
    V1 0 * V2 1 - V1 1 * V2 0,
    0]

/-- `XMVector3Length(V)`: the square root of the dot product, replicated. -/
def XMVector3Length (sm : ScalarMath K) (V : XMVECTOR K) : XMVECTOR K :=
  fun i => sm.sqrt (XMVector3Dot V V i)

/-- `XMVector3Normalize(V)`: every lane multiplied by the reciprocal of the
length; a length that is not positive is used as the factor unchanged (the
guard against division by zero). -/
def XMVector3Normalize (sm : ScalarMath K) (V : XMVECTOR K) : XMVECTOR K :=
  let fLength := XMVector3Length sm V 0
  let fLength := if fLength > 0 then 1 / fLength else fLength
  fun i => V i * fLength

/-- `XMVectorSelect(V1, V2, g_XMSelect1110)`: x, y, z from `V2`, w from `V1`. -/
def XMVectorSelect1110 (V1 V2 : XMVECTOR K) : XMVECTOR K :=
  ![V2 0, V2 1, V2 2, V1 3]

/-- `g_XMIdentityR3`: the row (0, 0, 0, 1). -/
def g_XMIdentityR3 : XMVECTOR K := ![0, 0, 0, 1]

/-- `XMMatrixIdentity()`. -/
def XMMatrixIdentity : XMMATRIX K :=
  Matrix.of ![![1, 0, 0, 0], ![0, 1, 0, 0], ![0, 0, 1, 0], ![0, 0, 0, 1]]

/-- `XMMatrixTranspose(M)`: entry (i, j) of the result is entry (j, i) of `M`. -/
def XMMatrixTranspose (M : XMMATRIX K) : XMMATRIX K := Matrix.of fun i j => M j i

/-- `XMMatrixRotationY(Angle)`: sine and cosine of the angle placed in the
x/z plane. -/
def XMMatrixRotationY (sm : ScalarMath K) (Angle : K) : XMMATRIX K :=
  let fSinAngle := sm.sin Angle
  let fCosAngle := sm.cos Angle
  Matrix.of ![![fCosAngle, 0, -fSinAngle, 0],
              ![0, 1, 0, 0],
              ![fSinAngle, 0, fCosAngle, 0],
              ![0, 0, 0, 1]]

/-- `XMMatrixLookToLH(EyePosition, EyeDirection, UpDirection)`. -/
def XMMatrixLookToLH (sm : ScalarMath K) (EyePosition EyeDirection UpDirection : XMVECTOR K) :
    XMMATRIX K :=
  let R2 := XMVector3Normalize sm EyeDirection
  let R0 := XMVector3Cross UpDirection R2
  let R0 := XMVector3Normalize sm R0
  let R1 := XMVector3Cross R2 R0
  let NegEyePosition := XMVectorNegate EyePosition
  let D0 := XMVector3Dot R0 NegEyePosition
  let D1 := XMVector3Dot R1 NegEyePosition
  let D2 := XMVector3Dot R2 NegEyePosition
  let M : XMMATRIX K := Matrix.of ![XMVectorSelect1110 D0 R0,
                                    XMVectorSelect1110 D1 R1,
                                    XMVectorSelect1110 D2 R2,
                                    g_XMIdentityR3]
  XMMatrixTranspose M

/-- `XMMatrixLookAtLH(EyePosition, FocusPosition, UpDirection)`. -/
def XMMatrixLookAtLH (sm : ScalarMath K) (EyePosition FocusPosition UpDirection : XMVECTOR K) :
    XMMATRIX K :=
  let EyeDirection := XMVectorSubtract FocusPosition EyePosition
  XMMatrixLookToLH sm EyePosition EyeDirection UpDirection

/-- `XMMatrixPerspectiveFovLH(FovAngleY, AspectRatio, NearZ, FarZ)`. -/
def XMMatrixPerspectiveFovLH (sm : ScalarMath K) (FovAngleY AspectRatio NearZ FarZ : K) :
    XMMATRIX K :=
  let SinFov := sm.sin (1 / 2 * FovAngleY)
  let CosFov := sm.cos (1 / 2 * FovAngleY)
  let Height := CosFov / SinFov
  let Width := Height / AspectRatio
  let fRange := FarZ / (FarZ - NearZ)
  Matrix.of ![![Width, 0, 0, 0],
              ![0, Height, 0, 0],
              ![0, 0, fRange, 1],
              ![0, 0, -fRange * NearZ, 0]]

/-- `XM_PIDIV2`: half of `XM_PI`. -/
def XM_PIDIV2 (sm : ScalarMath K) : K := sm.pi / 2

/-- `XMVector4Transform(V, M)`: the row vector `V` times the matrix `M`,
`V.x * M.r[0] + V.y * M.r[1] + V.z * M.r[2] + V.w * M.r[3]`. -/
def XMVector4Transform (V : XMVECTOR K) (M : XMMATRIX K) : XMVECTOR K :=
  fun j => V 0 * M 0 j + V 1 * M 1 j + V 2 * M 2 j + V 3 * M 3 j

end Math

/-! ## Handles, result codes and descriptors -/

/-- A non-null interface pointer; a COM smart pointer is an `Option Handle`. -/
abbrev Handle := Nat

/-- `HRESULT`: a signed 32-bit result code. -/
abbrev HRESULT := Int

/-- `S_OK`. -/
def S_OK : HRESULT := 0

/-- `FAILED(hr)`: the result code is negative. -/
def FAILED (hr : HRESULT) : Bool := decide (hr < 0)

/-- What a `ComPtr` holds after its address was handed to an out-parameter:
the pointer the callee stored, or its previous content when nothing was
stored. -/
def storeOut (out old : Option Handle) : Option Handle :=
  match out with
  | some h => some h
  | none => old

/-- The `DXGI_FORMAT` values the program names. -/
inductive DXGI_FORMAT
  | R8G8B8A8_UNORM
  | R32G32B32_FLOAT
  | R32G32B32A32_FLOAT
  deriving DecidableEq, Repr

/-- The feature levels the program names. -/
inductive D3D_FEATURE_LEVEL
  | LEVEL_11_0
  deriving DecidableEq, Repr

/-- `DXGI_SWAP_CHAIN_DESC`, the fields `InitD3D` fills in. -/
structure DXGI_SWAP_CHAIN_DESC where
  BufferCount : Nat
  Width : Nat
  Height : Nat
  Format : DXGI_FORMAT
  RefreshRateNumerator : Nat
  RefreshRateDenominator : Nat
  OutputWindow : Option Handle
  SampleCount : Nat
  SampleQuality : Nat
  Windowed : Bool
  deriving DecidableEq, Repr

/-- `D3D11_VIEWPORT`. -/
structure D3D11_VIEWPORT (K : Type) where
  Width : K
  Height : K
  MinDepth : K
  MaxDepth : K
  TopLeftX : K
  TopLeftY : K

/-- `D3D11_INPUT_ELEMENT_DESC` (all elements are per-vertex data). -/
structure D3D11_INPUT_ELEMENT_DESC where
  SemanticName : String
  SemanticIndex : Nat
  Format : DXGI_FORMAT
  InputSlot : Nat
  AlignedByteOffset : Nat
  InstanceDataStepRate : Nat
  deriving DecidableEq, Repr

/-- The vertex record of the program. -/
structure SimpleVertex (K : Type) where
  Pos : XMFLOAT3 K
  Color : XMFLOAT4 K

/-- The constant-buffer record of the program. -/
structure ConstantBuffer (K : Type) where
  mWorld : XMMATRIX K
  mView : XMMATRIX K
  mProjection : XMMATRIX K

/-! ## Byte layout of the records -/

/-- Size and alignment of a type, in bytes. -/
structure TypeLayout where
  size : Nat
  align : Nat
  deriving DecidableEq, Repr

/-- The 32-bit `float`. -/
def floatLayout : TypeLayout := ⟨4, 4⟩

/-- `XMFLOAT3`: three consecutive floats. -/
def XMFLOAT3.layout : TypeLayout := ⟨3 * floatLayout.size, floatLayout.align⟩

/-- `XMFLOAT4`: four consecutive floats. -/
def XMFLOAT4.layout : TypeLayout := ⟨4 * floatLayout.size, floatLayout.align⟩

/-- `XMMATRIX`: four 16-byte vectors, 16-byte aligned. -/
def XMMATRIX.layout : TypeLayout := ⟨4 * 16, 16⟩

/-- The smallest multiple of `a` that is at least `n`. -/
def alignUp (n a : Nat) : Nat := (n + a - 1) / a * a

/-- The offsets of the fields of a record laid out in declaration order, each
at the first suitably aligned byte after the previous field; `cursor` is the
first free byte. -/
def fieldOffsetsFrom (cursor : Nat) : List TypeLayout → List Nat
  | [] => []
  | f :: fs => alignUp cursor f.align :: fieldOffsetsFrom (alignUp cursor f.align + f.size) fs

/-- The first free byte after the last field. -/
def fieldsEndFrom (cursor : Nat) : List TypeLayout → Nat
  | [] => cursor
  | f :: fs => fieldsEndFrom (alignUp cursor f.align + f.size) fs

/-- `offsetof` for each field of a record. -/
def fieldOffsets (fields : List TypeLayout) : List Nat := fieldOffsetsFrom 0 fields

/-- `sizeof` of a record: the end of the last field rounded up to the largest
field alignment. -/
def structSize (fields : List TypeLayout) : Nat :=
  alignUp (fieldsEndFrom 0 fields) ((fields.map TypeLayout.align).foldl max 1)

/-- The fields of `SimpleVertex`: `Pos`, then `Color`. -/
def SimpleVertex.fields : List TypeLayout := [XMFLOAT3.layout, XMFLOAT4.layout]

/-- The fields of `ConstantBuffer`: three matrices. -/
def ConstantBuffer.fields : List TypeLayout := [XMMATRIX.layout, XMMATRIX.layout, XMMATRIX.layout]

/-- `sizeof(SimpleVertex)`. -/
def sizeofSimpleVertex : Nat := structSize SimpleVertex.fields

/-- `sizeof(ConstantBuffer)`. -/
def sizeofConstantBuffer : Nat := structSize ConstantBuffer.fields

/-- The number of bytes one element of a format occupies. -/
def DXGI_FORMAT.byteSize : DXGI_FORMAT → Nat
  | .R8G8B8A8_UNORM => 4
  | .R32G32B32_FLOAT => 12
  | .R32G32B32A32_FLOAT => 16

/-- The array `layout` of `InitPipeline`. -/
def layout : List D3D11_INPUT_ELEMENT_DESC :=
  [ ⟨"POSITION", 0, .R32G32B32_FLOAT, 0, 0, 0⟩,
    ⟨"COLOR", 0, .R32G32B32A32_FLOAT, 0, 12, 0⟩ ]

/-- The bytes of a vertex an input element reads: from its offset up to, not
including, its offset plus the size of its format. -/
def D3D11_INPUT_ELEMENT_DESC.covers (e : D3D11_INPUT_ELEMENT_DESC) (b : Nat) : Bool :=
  decide (e.AlignedByteOffset ≤ b) && decide (b < e.AlignedByteOffset + e.Format.byteSize)

/-! ## The driver, the trace and the program state -/

/-- The shader stages compiled from `Shaders.hlsl`. -/
inductive ShaderStage
  | VS
  | PS
  deriving DecidableEq, Repr

/-- One call into the operating system or the graphics runtime, with the
arguments the program chooses. -/
inductive Call (K : Type)
  | RegisterClassExW
  | CreateWindowW (width height : Nat)
  | ShowWindow
  | UpdateWindow
  | InitD3D
  | InitPipeline
  | PeekMessage
  | TranslateMessage (message : Nat)
  | DispatchMessage (message : Nat)
  | Render
  | D3D11CreateDeviceAndSwapChain (featureLevels : List D3D_FEATURE_LEVEL) (sd : DXGI_SWAP_CHAIN_DESC)
  | GetBuffer
  | CreateRenderTargetView
  | OMSetRenderTargets (rtv : Option Handle)
  | RSSetViewports (vp : D3D11_VIEWPORT K)
  | D3DCompileFromFile (stage : ShaderStage)
  | OutputDebugStringA
  | CreateVertexShader
  | CreateInputLayout (elements : List D3D11_INPUT_ELEMENT_DESC)
  | IASetInputLayout
  | CreatePixelShader
  | CreateVertexBuffer (byteWidth : Nat) (data : List (SimpleVertex K))
  | CreateConstantBuffer (byteWidth : Nat)
  | GetTickCount64
  | ClearRenderTargetView (color : XMFLOAT4 K)
  | UpdateSubresource (cb : ConstantBuffer K)
  | VSSetConstantBuffers
  | VSSetShader
  | PSSetShader
  | IASetVertexBuffers (stride offset : Nat)
  | IASetPrimitiveTopologyTriangleList
  | Draw (vertexCount startVertexLocation : Nat)
  | Present

/-- The answer to a call with one out-parameter. -/
structure Created where
  hr : HRESULT
  out : Option Handle
  deriving DecidableEq, Repr

/-- The answer to `D3D11CreateDeviceAndSwapChain`. -/
structure DeviceAndSwapChain where
  hr : HRESULT
  swapChain : Option Handle
  device : Option Handle
  context : Option Handle
  deriving DecidableEq, Repr

/-- The answer to `D3DCompileFromFile`. -/
structure Compiled where
  hr : HRESULT
  code : Option Handle
  errors : Option Handle
  deriving DecidableEq, Repr

/-- The answers of the operating system and the graphics driver to the calls
the initialisation makes. -/
structure Driver where
  CreateWindowW : Option Handle
  D3D11CreateDeviceAndSwapChain : DeviceAndSwapChain
  GetBuffer : Created
  CreateRenderTargetView : Created
  CompileVS : Compiled
  CreateVertexShader : Created
  CreateInputLayout : Created
  CompilePS : Compiled
  CreatePixelShader : Created
  CreateVertexBuffer : Created
  CreateConstantBuffer : Created
  deriving DecidableEq, Repr

/-- How a function of the program ends: it returns a value, or it dereferences
a null pointer. -/
inductive Outcome (α : Type)
  | returned (a : α)
  | accessViolation
  deriving DecidableEq, Repr

/-- The global variables, the static local of `Render`, the contents of the
two GPU buffers and the trace of calls. -/
structure State (K : Type) where
  g_hWnd : Option Handle
  g_pd3dDevice : Option Handle
  g_pImmediateContext : Option Handle
  g_pSwapChain : Option Handle
  g_pRenderTargetView : Option Handle
  g_pVertexShader : Option Handle
  g_pPixelShader : Option Handle
  g_pVertexLayout : Option Handle
  g_pVertexBuffer : Option Handle
  g_pConstantBuffer : Option Handle
  g_World : XMMATRIX K
  g_View : XMMATRIX K
  g_Projection : XMMATRIX K
  /-- The static local `timeStart` of `Render`. -/
  timeStart : Nat
  /-- The vertices the vertex buffer was created with. -/
  vertexBufferData : List (SimpleVertex K)
  /-- The block last written into the constant buffer. -/
  constantBufferData : Option (ConstantBuffer K)
  /-- Every call made so far, oldest first. -/
  calls : List (Call K)

section Program

variable {K : Type} [LinearOrderedField K]

/-- The state at program start: null pointers, zeroed matrices,
`timeStart = 0`, empty buffers, no call made. -/
def State.initial : State K :=
  { g_hWnd := none, g_pd3dDevice := none, g_pImmediateContext := none, g_pSwapChain := none,
    g_pRenderTargetView := none, g_pVertexShader := none, g_pPixelShader := none,
    g_pVertexLayout := none, g_pVertexBuffer := none, g_pConstantBuffer := none,
    g_World := 0, g_View := 0, g_Projection := 0, timeStart := 0,
    vertexBufferData := [], constantBufferData := none, calls := [] }

/-- Append a call to the trace. -/
@[simps]
def State.log (s : State K) (c : Call K) : State K :=
  { s with calls := s.calls ++ [c] }

/-- The assignment to `g_hWnd`. -/
@[simps]
def State.setWindow (s : State K) (hWnd : Option Handle) : State K :=
  { s with g_hWnd := hWnd }

/-- The three out-parameters of `D3D11CreateDeviceAndSwapChain`, which are the
addresses of `g_pSwapChain`, `g_pd3dDevice` and `g_pImmediateContext`. -/
@[simps]
def State.storeDeviceAndSwapChain (s : State K) (r : DeviceAndSwapChain) : State K :=
  { s with g_pSwapChain := storeOut r.swapChain s.g_pSwapChain,
           g_pd3dDevice := storeOut r.device s.g_pd3dDevice,
           g_pImmediateContext := storeOut r.context s.g_pImmediateContext }

/-- The out-parameter of `CreateRenderTargetView`, the address of
`g_pRenderTargetView`. -/
@[simps]
def State.storeRenderTargetView (s : State K) (out : Option Handle) : State K :=
  { s with g_pRenderTargetView := storeOut out s.g_pRenderTargetView }

/-- The out-parameter of `CreateVertexShader`, the address of `g_pVertexShader`. -/
@[simps]
def State.storeVertexShader (s : State K) (out : Option Handle) : State K :=
  { s with g_pVertexShader := storeOut out s.g_pVertexShader }

/-- The out-parameter of `CreateInputLayout`, the address of `g_pVertexLayout`. -/
@[simps]
def State.storeVertexLayout (s : State K) (out : Option Handle) : State K :=
  { s with g_pVertexLayout := storeOut out s.g_pVertexLayout }

/-- The out-parameter of `CreatePixelShader`, the address of `g_pPixelShader`. -/
@[simps]
def State.storePixelShader (s : State K) (out : Option Handle) : State K :=
  { s with g_pPixelShader := storeOut out s.g_pPixelShader }

/-- The out-parameter of the first `CreateBuffer`, the address of
`g_pVertexBuffer`; a buffer that was created holds the initial data. -/
@[simps]
def State.storeVertexBuffer (s : State K) (r : Created) (data : List (SimpleVertex K)) :
    State K :=
  { s with g_pVertexBuffer := storeOut r.out s.g_pVertexBuffer,
           vertexBufferData := if FAILED r.hr then s.vertexBufferData else data }

/-- The out-parameter of the second `CreateBuffer`, the address of
`g_pConstantBuffer`. -/
@[simps]
def State.storeConstantBuffer (s : State K) (out : Option Handle) : State K :=
  { s with g_pConstantBuffer := storeOut out s.g_pConstantBuffer }

/-- The assignments to `g_World`, `g_View` and `g_Projection`. -/
@[simps]
def State.setMatrices (s : State K) (world view projection : XMMATRIX K) : State K :=
  { s with g_World := world, g_View := view, g_Projection := projection }

/-- The assignment to the static local `timeStart`. -/
@[simps]
def State.setTimeStart (s : State K) (timeStart : Nat) : State K :=
  { s with timeStart := timeStart }

/-- The assignment to `g_World`. -/
@[simps]
def State.setWorld (s : State K) (world : XMMATRIX K) : State K :=
  { s with g_World := world }

/-- The effect of `UpdateSubresource` on the constant buffer: the whole buffer
is overwritten with the block. -/
@[simps]
def State.upload (s : State K) (cb : ConstantBuffer K) : State K :=
  { s with constantBufferData := some cb }

/-- The swap-chain description `sd` of `InitD3D`. -/
def swapChainDesc (hWnd : Option Handle) : DXGI_SWAP_CHAIN_DESC :=
  { BufferCount := 1, Width := 800, Height := 600, Format := .R8G8B8A8_UNORM,
    RefreshRateNumerator := 60, RefreshRateDenominator := 1, OutputWindow := hWnd,
    SampleCount := 1, SampleQuality := 0, Windowed := true }

/-- The array `featureLevels` of `InitD3D`. -/
def featureLevels : List D3D_FEATURE_LEVEL := [.LEVEL_11_0]

/-- The viewport `vp` of `InitD3D`. -/
def viewport : D3D11_VIEWPORT K :=
  { Width := 800, Height := 600, MinDepth := 0, MaxDepth := 1, TopLeftX := 0, TopLeftY := 0 }

/-- `InitD3D(hWnd)`. -/
def InitD3D (drv : Driver) (hWnd : Option Handle) (s : State K) : Outcome HRESULT × State K :=
  let sd := swapChainDesc hWnd
  let r := drv.D3D11CreateDeviceAndSwapChain
  let s := (s.log (.D3D11CreateDeviceAndSwapChain featureLevels sd)).storeDeviceAndSwapChain r
  let hr := r.hr
  if FAILED hr then (.returned hr, s) else
  match s.g_pSwapChain with
  | none => (.accessViolation, s)
  | some _ =>
    let s := s.log .GetBuffer
    let hr := drv.GetBuffer.hr
    if FAILED hr then (.returned hr, s) else
    match s.g_pd3dDevice with
    | none => (.accessViolation, s)
    | some _ =>
      let r := drv.CreateRenderTargetView
      let s := (s.log .CreateRenderTargetView).storeRenderTargetView r.out
      let hr := r.hr
      if FAILED hr then (.returned hr, s) else
      match s.g_pImmediateContext with
      | none => (.accessViolation, s)
      | some _ =>
        let s := s.log (.OMSetRenderTargets s.g_pRenderTargetView)
        let s := s.log (.RSSetViewports viewport)
        (.returned S_OK, s)

/-- The array `vertices` of `InitPipeline`. -/
def vertices : List (SimpleVertex K) :=
  [ ⟨⟨0, 1 / 2, 1 / 2⟩, ⟨1, 0, 0, 1⟩⟩,
    ⟨⟨1 / 2, -(1 / 2), 1 / 2⟩, ⟨0, 1, 0, 1⟩⟩,
    ⟨⟨-(1 / 2), -(1 / 2), 1 / 2⟩, ⟨0, 0, 1, 1⟩⟩ ]

/-- The camera position `Eye` of `InitPipeline`. -/
def Eye : XMVECTOR K := XMVectorSet 0 0 (-5) 0

/-- The camera target `At` of `InitPipeline`. -/
def At : XMVECTOR K := XMVectorSet 0 0 0 0

/-- The camera up direction `Up` of `InitPipeline`. -/
def Up : XMVECTOR K := XMVectorSet 0 1 0 0

/-- The view matrix `InitPipeline` stores in `g_View`. -/
def initialView (sm : ScalarMath K) : XMMATRIX K := XMMatrixLookAtLH sm Eye At Up

/-- The projection matrix `InitPipeline` stores in `g_Projection`. -/
def initialProjection (sm : ScalarMath K) : XMMATRIX K :=
  XMMatrixPerspectiveFovLH sm (XM_PIDIV2 sm) (800 / 600) (1 / 100) 100

/-- `InitPipeline()`. -/
def InitPipeline (sm : ScalarMath K) (drv : Driver) (s : State K) : Outcome HRESULT × State K :=
  let r := drv.CompileVS
  let pVSBlob := r.code
  let pErrorBlob := r.errors
  let s := s.log (.D3DCompileFromFile .VS)
  let hr := r.hr
  if FAILED hr then
    (.returned hr, if pErrorBlob.isSome then s.log .OutputDebugStringA else s)
  else
  match s.g_pd3dDevice, pVSBlob with
  | none, _ => (.accessViolation, s)
  | some _, none => (.accessViolation, s)
  | some _, some _ =>
    let r := drv.CreateVertexShader
    let s := (s.log .CreateVertexShader).storeVertexShader r.out
    let hr := r.hr
    if FAILED hr then (.returned hr, s) else
    let r := drv.CreateInputLayout
    let s := (s.log (.CreateInputLayout layout)).storeVertexLayout r.out
    let hr := r.hr
    if FAILED hr then (.returned hr, s) else
    match s.g_pImmediateContext with
    | none => (.accessViolation, s)
    | some _ =>
      let s := s.log .IASetInputLayout
      let r := drv.CompilePS
      let pPSBlob := r.code
      let pErrorBlob := storeOut r.errors pErrorBlob
      let s := s.log (.D3DCompileFromFile .PS)
      let hr := r.hr
      if FAILED hr then
        (.returned hr, if pErrorBlob.isSome then s.log .OutputDebugStringA else s)
      else
      match pPSBlob with
      | none => (.accessViolation, s)
      | some _ =>
        let r := drv.CreatePixelShader
        let s := (s.log .CreatePixelShader).storePixelShader r.out
        let hr := r.hr
        if FAILED hr then (.returned hr, s) else
        let r := drv.CreateVertexBuffer
        let hr := r.hr
        let s := (s.log (.CreateVertexBuffer (sizeofSimpleVertex * 3) vertices)).storeVertexBuffer
          r vertices
        if FAILED hr then (.returned hr, s) else
        let r := drv.CreateConstantBuffer
        let s := (s.log (.CreateConstantBuffer sizeofConstantBuffer)).storeConstantBuffer r.out
        let hr := r.hr
        if FAILED hr then (.returned hr, s) else
        let s := s.setMatrices XMMatrixIdentity (initialView sm) (initialProjection sm)
        (.returned S_OK, s)

/-- The clock arithmetic of `Render` on 64-bit unsigned integers: the static
`timeStart` takes the reading `timeCur` when it is still 0, and the elapsed
milliseconds are `timeCur - timeStart` modulo 2^64.  The result is the new
`timeStart` and the elapsed milliseconds. -/
def renderClock (timeStart timeCur : Nat) : Nat × Nat :=
  let timeStart := if timeStart = 0 then timeCur else timeStart
  (timeStart, (timeCur + 2 ^ 64 - timeStart) % 2 ^ 64)

/-- The colour `ClearColor` of `Render`. -/
def ClearColor : XMFLOAT4 K := ⟨0, 1 / 8, 3 / 10, 1⟩

/-- The block `cb` that `Render` fills from the three global matrices. -/
def constantBlock (world view projection : XMMATRIX K) : ConstantBuffer K :=
  { mWorld := XMMatrixTranspose world,
    mView := XMMatrixTranspose view,
    mProjection := XMMatrixTranspose projection }

/-- `Render()`, with the reading `timeCur` that `GetTickCount64` returns. -/
def Render (sm : ScalarMath K) (timeCur : Nat) (s : State K) : Outcome Unit × State K :=
  match s.g_pImmediateContext with
  | none => (.accessViolation, s)
  | some _ =>
    let s := s.log (.ClearRenderTargetView ClearColor)
    let s := s.log .GetTickCount64
    let clock := renderClock s.timeStart timeCur
    let s := s.setTimeStart clock.1
    let t : K := (clock.2 : K) / 1000
    let s := s.setWorld (XMMatrixRotationY sm t)
    let cb := constantBlock s.g_World s.g_View s.g_Projection
    let s := (s.log (.UpdateSubresource cb)).upload cb
    let s := s.log .VSSetConstantBuffers
    let s := s.log .VSSetShader
    let s := s.log .PSSetShader
    let stride := sizeofSimpleVertex
    let offset := 0
    let s := s.log (.IASetVertexBuffers stride offset)
    let s := s.log .IASetPrimitiveTopologyTriangleList
    let s := s.log (.Draw 3 0)
    match s.g_pSwapChain with
    | none => (.accessViolation, s)
    | some _ => (.returned (), s.log .Present)

/-! ## The entry point and the message loop -/

/-- `MSG`, the fields the program reads. -/
structure MSG where
  message : Nat
  wParam : Nat
  deriving DecidableEq, Repr

/-- `WM_QUIT`. -/
def WM_QUIT : Nat := 0x0012

/-- The conversion `(int)msg.wParam`: the low 32 bits as a signed integer. -/
def intOfWPARAM (wParam : Nat) : Int := ((wParam + 2 ^ 31) % 2 ^ 32 : Nat) - 2 ^ 31

/-- The conversion `(WPARAM)nExitCode` by which `PostQuitMessage(nExitCode)`
stores an exit code in the `wParam` of `WM_QUIT`: sign extension to 64 bits. -/
def WPARAMofInt (nExitCode : Int) : Nat := (nExitCode % 2 ^ 64).toNat

/-- What one iteration of the loop finds: `PeekMessage` delivers a message, or
it reports an empty queue and the `Render` that follows reads the tick count. -/
inductive Input
  | message (msg : MSG)
  | idle (tick : Nat)
  deriving DecidableEq, Repr

/-- How the process ends: `wWinMain` returns a code, the process dies on a null
pointer, or the loop is still running when the recorded inputs are used up. -/
inductive Exit
  | returned (code : Int)
  | crashed
  | running
  deriving DecidableEq, Repr

/-- The loop `while (msg.message != WM_QUIT)` of `wWinMain` followed by
`return (int)msg.wParam`. -/
def messageLoop (sm : ScalarMath K) : List Input → MSG → State K → Exit × State K
  | [], msg, s =>
    if msg.message ≠ WM_QUIT then (.running, s) else (.returned (intOfWPARAM msg.wParam), s)
  | .message m :: rest, msg, s =>
    if msg.message ≠ WM_QUIT then
      let s := s.log .PeekMessage
      let msg := m
      let s := s.log (.TranslateMessage msg.message)
      let s := s.log (.DispatchMessage msg.message)
      messageLoop sm rest msg s
    else (.returned (intOfWPARAM msg.wParam), s)
  | .idle tick :: rest, msg, s =>
    if msg.message ≠ WM_QUIT then
      let s := s.log .PeekMessage
      let s := s.log .Render
      match Render sm tick s with
      | (.returned _, s) => messageLoop sm rest msg s
      | (.accessViolation, s) => (.crashed, s)
    else (.returned (intOfWPARAM msg.wParam), s)

/-- `wWinMain`, from the state at program start. -/
def wWinMain (sm : ScalarMath K) (drv : Driver) (inputs : List Input) : Exit × State K :=
  let s : State K := State.initial
  let s := s.log .RegisterClassExW
  let s := (s.log (.CreateWindowW 800 600)).setWindow drv.CreateWindowW
  if s.g_hWnd.isNone then (.returned 0, s) else
  let s := s.log .ShowWindow
  let s := s.log .UpdateWindow
  let s := s.log .InitD3D
  match InitD3D drv s.g_hWnd s with
  | (.accessViolation, s) => (.crashed, s)
  | (.returned hr, s) =>
    if FAILED hr then (.returned 0, s) else
    let s := s.log .InitPipeline
    match InitPipeline sm drv s with
    | (.accessViolation, s) => (.crashed, s)
    | (.returned hr, s) =>
      if FAILED hr then (.returned 0, s) else
      let msg : MSG := ⟨0, 0⟩
      messageLoop sm inputs msg s

/-! ## The vertex stage and the rasterizer -/

/-- Modelled from the spec: the vertex-stage program of `Shaders.hlsl`, which
is not among the sources.  It reads the three matrices of the constant buffer in
column-major order, so it sees each uploaded matrix transposed, extends the
position by `w = 1` and multiplies it by the world, the view and the projection
matrix in turn; the result is the clip-space position. -/
def vertexStage (cb : ConstantBuffer K) (Pos : XMFLOAT3 K) : XMVECTOR K :=
  let p := XMVectorSet Pos.x Pos.y Pos.z 1
  let p := XMVector4Transform p (XMMatrixTranspose cb.mWorld)
  let p := XMVector4Transform p (XMMatrixTranspose cb.mView)
  XMVector4Transform p (XMMatrixTranspose cb.mProjection)

/-- Normalised device coordinates x/w and y/w of a clip-space position. -/
def perspectiveDivide (p : XMVECTOR K) : K × K := (p 0 / p 3, p 1 / p 3)

/-- The pixel position a viewport assigns to normalised device coordinates:
x grows to the right from the left edge, y grows downwards from the top edge. -/
def D3D11_VIEWPORT.toScreen (vp : D3D11_VIEWPORT K) (ndc : K × K) : K × K :=
  (vp.TopLeftX + (ndc.1 + 1) / 2 * vp.Width, vp.TopLeftY + (1 - ndc.2) / 2 * vp.Height)

/-- A clip-space position lies inside the clip volume of the rasterizer:
`w > 0`, `-w ≤ x ≤ w`, `-w ≤ y ≤ w` and `0 ≤ z ≤ w`. -/
def insideClipVolume (p : XMVECTOR K) : Bool :=
  decide (0 < p 3) && decide (-(p 3) ≤ p 0) && decide (p 0 ≤ p 3)
    && decide (-(p 3) ≤ p 1) && decide (p 1 ≤ p 3) && decide (0 ≤ p 2) && decide (p 2 ≤ p 3)

/-- Three clip-space positions, the outputs of the vertex stage, in the order
the vertices are assembled. -/
structure Triangle (K : Type) where
  pa : XMVECTOR K
  pb : XMVECTOR K
  pc : XMVECTOR K

/-- The screen position of the first vertex under the viewport of `InitD3D`. -/
def Triangle.a (tri : Triangle K) : K × K := viewport.toScreen (perspectiveDivide tri.pa)

/-- The screen position of the second vertex under the viewport of `InitD3D`. -/
def Triangle.b (tri : Triangle K) : K × K := viewport.toScreen (perspectiveDivide tri.pb)

/-- The screen position of the third vertex under the viewport of `InitD3D`. -/
def Triangle.c (tri : Triangle K) : K × K := viewport.toScreen (perspectiveDivide tri.pc)

/-- No part of the triangle is clipped away: every vertex lies inside the clip
volume, in particular in front of the camera (`w > 0`). -/
def Triangle.insideClipVolume (tri : Triangle K) : Bool :=
  DX11.insideClipVolume tri.pa && DX11.insideClipVolume tri.pb && DX11.insideClipVolume tri.pc

/-- The same triangle with its vertices in reversed order. -/
def Triangle.reversed (tri : Triangle K) : Triangle K := ⟨tri.pc, tri.pb, tri.pa⟩

/-- Twice the signed area of a screen-space triangle.  With y growing downwards
it is positive exactly when the vertices run clockwise as seen on screen. -/
def Triangle.signedArea2 (tri : Triangle K) : K :=
  (tri.b.1 - tri.a.1) * (tri.c.2 - tri.a.2) - (tri.c.1 - tri.a.1) * (tri.b.2 - tri.a.2)

/-- The vertices run clockwise on screen. -/
def Triangle.clockwise (tri : Triangle K) : Bool := decide (0 < tri.signedArea2)

/-- The vertices run counter-clockwise on screen. -/
def Triangle.counterClockwise (tri : Triangle K) : Bool := decide (tri.signedArea2 < 0)

/-- Facing under the default rasterizer state (the program never sets one):
`FrontCounterClockwise = FALSE`, so a clockwise triangle is front-facing. -/
def Triangle.frontFacing (tri : Triangle K) : Bool := tri.clockwise

/-- Culling under the default rasterizer state: `CullMode = D3D11_CULL_BACK`,
so a counter-clockwise triangle is discarded. -/
def Triangle.culled (tri : Triangle K) : Bool := tri.counterClockwise

/-- The triangle is drawn in full: it lies inside the clip volume, it is not
culled and its area is not zero. -/
def Triangle.rasterized (tri : Triangle K) : Bool :=
  tri.insideClipVolume && !tri.culled && decide (tri.signedArea2 ≠ 0)

/-- The screen position of one vertex: vertex stage, perspective divide,
viewport of `InitD3D`. -/
def screenPosition (cb : ConstantBuffer K) (v : SimpleVertex K) : K × K :=
  viewport.toScreen (perspectiveDivide (vertexStage cb v.Pos))

/-- The triangle that `Draw(3, 0)` with a triangle-list topology assembles from
the first three vertices of a vertex buffer. -/
def assemble (cb : ConstantBuffer K) : List (SimpleVertex K) → Option (Triangle K)
  | v0 :: v1 :: v2 :: _ => some ⟨vertexStage cb v0.Pos, vertexStage cb v1.Pos, vertexStage cb v2.Pos⟩
  | _ => none

/-- The triangle the draw call of `Render` puts on screen: the vertex buffer
under the block last written to the constant buffer. -/
def drawnTriangle (s : State K) : Option (Triangle K) :=
  match s.constantBufferData with
  | some cb => assemble cb s.vertexBufferData
  | none => none

/-! ## Auxiliary definitions used by the statements -/

/-- The clock arithmetic of successive calls of `Render`: for each reading of
`GetTickCount64`, the value of `timeStart` after the call and the elapsed
milliseconds the call computes. -/
def renderClockRun (timeStart : Nat) : List Nat → List (Nat × Nat)
  | [] => []
  | r :: rs => renderClock timeStart r :: renderClockRun (renderClock timeStart r).1 rs

/-- The state in which `wWinMain` calls `InitD3D`: the window class is
registered, `CreateWindowW` has returned `hWnd`, the window is shown. -/
def atInitD3D (hWnd : Option Handle) : State K :=
  (((((State.initial.log .RegisterClassExW).log (.CreateWindowW 800 600)).setWindow hWnd).log
    .ShowWindow).log .UpdateWindow).log .InitD3D

/-- The calls `wWinMain` makes itself, as opposed to those made inside
`InitD3D`, `InitPipeline` and `Render`. -/
def Call.byWinMain : Call K → Bool
  | .RegisterClassExW => true
  | .CreateWindowW _ _ => true
  | .ShowWindow => true
  | .UpdateWindow => true
  | .InitD3D => true
  | .InitPipeline => true
  | .PeekMessage => true
  | .TranslateMessage _ => true
  | .DispatchMessage _ => true
  | .Render => true
  | _ => false

/-- The upper-left 3×3 block of a matrix: its linear part. -/
def upperLeft3 (M : XMMATRIX K) : Matrix (Fin 3) (Fin 3) K :=
  Matrix.of ![![M 0 0, M 0 1, M 0 2], ![M 1 0, M 1 1, M 1 2], ![M 2 0, M 2 1, M 2 2]]

/-- The x, y, z entries of the fourth row of a matrix: its translation. -/
def translationRow (M : XMMATRIX K) : Fin 3 → K := ![M 3 0, M 3 1, M 3 2]

end Program

/-- A driver that satisfies every request: each call succeeds and stores a
distinct non-null pointer. -/
def workingDriver : Driver :=
  { CreateWindowW := some 1,
    D3D11CreateDeviceAndSwapChain := ⟨0, some 2, some 3, some 4⟩,
    GetBuffer := ⟨0, some 5⟩,
    CreateRenderTargetView := ⟨0, some 6⟩,
    CompileVS := ⟨0, some 7, none⟩,
    CreateVertexShader := ⟨0, some 8⟩,
    CreateInputLayout := ⟨0, some 9⟩,
    CompilePS := ⟨0, some 10, none⟩,
    CreatePixelShader := ⟨0, some 11⟩,
    CreateVertexBuffer := ⟨0, some 12⟩,
    CreateConstantBuffer := ⟨0, some 13⟩ }

/-- The state in which the message loop starts on `workingDriver`: both
initialisations have succeeded. -/
def readyState {K : Type} [LinearOrderedField K] (sm : ScalarMath K) : State K :=
  (InitPipeline sm workingDriver
    ((InitD3D workingDriver (some 1) (atInitD3D (some 1))).2.log .InitPipeline)).2

/-- `DXGI_ERROR_UNSUPPORTED` (0x887A0004) as a signed 32-bit result code. -/
def DXGI_ERROR_UNSUPPORTED : HRESULT := -2005270524

/-- `E_FAIL` (0x80004005) as a signed 32-bit result code. -/
def E_FAIL : HRESULT := -2147467259

/-- A driver without feature level 11_0: device creation fails and stores
nothing. -/
def unsupportedDriver : Driver :=
  { workingDriver with D3D11CreateDeviceAndSwapChain := ⟨DXGI_ERROR_UNSUPPORTED, none, none, none⟩ }

/-- A driver on which `Shaders.hlsl` does not compile: the vertex-stage
compilation fails and hands back an error blob. -/
def brokenShaderDriver : Driver :=
  { workingDriver with CompileVS := ⟨E_FAIL, none, some 14⟩ }

/-- A system on which the window cannot be created. -/
def windowlessDriver : Driver :=
  { workingDriver with CreateWindowW := none }

end DX11


/-! # Theorems -/

namespace DX11

open Matrix

/-! ## Helper lemmas: the real-number instances of the matrices -/

section Real

theorem XMMatrixRotationY_zero : XMMatrixRotationY realMath 0 = XMMatrixIdentity := by
  ext i j
  fin_cases i <;> fin_cases j <;>
    simp [XMMatrixRotationY, XMMatrixIdentity, realMath, vecHead, vecTail]

theorem initialView_real :
    initialView realMath
      = Matrix.of ![![1, 0, 0, 0], ![0, 1, 0, 0], ![0, 0, 1, 0], ![0, 0, 5, 1]] := by
  ext i j
  fin_cases i <;> fin_cases j <;>
    simp [initialView, XMMatrixLookAtLH, XMMatrixLookToLH, XMMatrixTranspose, XMVector3Normalize,
      XMVector3Length, XMVector3Dot, XMVector3Cross, XMVectorNegate, XMVectorSelect1110,
      g_XMIdentityR3, XMVectorSubtract, Eye, At, Up, XMVectorSet, realMath, vecHead, vecTail]

theorem cot_quarter_pi :
    Real.cos (1 / 2 * (Real.pi / 2)) / Real.sin (1 / 2 * (Real.pi / 2)) = 1 := by
  have h : (1 / 2 : ℝ) * (Real.pi / 2) = Real.pi / 4 := by ring
  rw [h, Real.cos_pi_div_four, Real.sin_pi_div_four]
  have h2 : (0 : ℝ) < Real.sqrt 2 := Real.sqrt_pos.mpr (by norm_num)
  exact div_self (by positivity)

theorem initialProjection_real :
    initialProjection realMath
      = Matrix.of ![![3 / 4, 0, 0, 0], ![0, 1, 0, 0], ![0, 0, 10000 / 9999, 1],
                    ![0, 0, -(100 / 9999), 0]] := by
  ext i j
  fin_cases i <;> fin_cases j <;>
    simp only [initialProjection, XMMatrixPerspectiveFovLH, XM_PIDIV2, realMath,
      cot_quarter_pi] <;>
    simp <;> norm_num

theorem vertexStage_real (t x y z : ℝ) :
    vertexStage (constantBlock (XMMatrixRotationY realMath t) (initialView realMath)
      (initialProjection realMath)) ⟨x, y, z⟩
      = ![(x * Real.cos t + z * Real.sin t) * (3 / 4), y,
          (z * Real.cos t - x * Real.sin t + 5) * (10000 / 9999) - 100 / 9999,
          z * Real.cos t - x * Real.sin t + 5] := by
  rw [initialView_real, initialProjection_real]
  ext j
  fin_cases j <;>
    simp [vertexStage, constantBlock, XMMatrixTranspose, XMVector4Transform, XMVectorSet,
      XMMatrixRotationY, realMath, vecHead, vecTail] <;> ring

theorem screenPosition_real (t x y z : ℝ) (Color : XMFLOAT4 ℝ) :
    screenPosition (constantBlock (XMMatrixRotationY realMath t) (initialView realMath)
      (initialProjection realMath)) ⟨⟨x, y, z⟩, Color⟩
      = (0 + ((x * Real.cos t + z * Real.sin t) * (3 / 4)
                / (z * Real.cos t - x * Real.sin t + 5) + 1) / 2 * 800,
         0 + (1 - y / (z * Real.cos t - x * Real.sin t + 5)) / 2 * 600) := by
  simp only [screenPosition, vertexStage_real, perspectiveDivide, D3D11_VIEWPORT.toScreen,
    viewport]
  rfl

/-- Twice the signed screen area of a triangle given by clip-space x, y, w of
its vertices, under the 800×600 viewport. -/
theorem signedArea2_of_clip (tri : Triangle ℝ) (xa ya wa xb yb wb xc yc wc : ℝ)
    (ha : wa ≠ 0) (hb : wb ≠ 0) (hc : wc ≠ 0)
    (h1 : tri.a = (0 + (xa / wa + 1) / 2 * 800, 0 + (1 - ya / wa) / 2 * 600))
    (h2 : tri.b = (0 + (xb / wb + 1) / 2 * 800, 0 + (1 - yb / wb) / 2 * 600))
    (h3 : tri.c = (0 + (xc / wc + 1) / 2 * 800, 0 + (1 - yc / wc) / 2 * 600)) :
    tri.signedArea2
      = -120000 * (xa * (yb * wc - yc * wb) - ya * (xb * wc - xc * wb)
          + wa * (xb * yc - xc * yb)) / (wa * wb * wc) := by
  simp only [Triangle.signedArea2, h1, h2, h3]
  field_simp
  ring

/-- A vertex of `vertices` under a world rotation lies inside the clip
volume. -/
theorem insideClipVolume_real (t x y z : ℝ)
    (hw : 4 ≤ z * Real.cos t - x * Real.sin t + 5) (hw' : z * Real.cos t - x * Real.sin t + 5 ≤ 6)
    (hx : -1 ≤ x * Real.cos t + z * Real.sin t) (hx' : x * Real.cos t + z * Real.sin t ≤ 1)
    (hy : -1 ≤ y) (hy' : y ≤ 1) :
    insideClipVolume (vertexStage (constantBlock (XMMatrixRotationY realMath t)
      (initialView realMath) (initialProjection realMath)) ⟨x, y, z⟩) = true := by
  rw [vertexStage_real]
  simp only [insideClipVolume, Bool.and_eq_true, decide_eq_true_eq]
  simp [vecHead, vecTail]
  refine ⟨⟨⟨⟨⟨⟨?_, ?_⟩, ?_⟩, ?_⟩, ?_⟩, ?_⟩, ?_⟩ <;> linarith

/-- The triangle of `vertices` under a world rotation by `t`: it lies inside
the clip volume and its signed area is `1 + 10 cos t` times a positive
factor. -/
theorem rotated_signedArea2 (t : ℝ) :
    ∃ tri : Triangle ℝ,
      assemble (constantBlock (XMMatrixRotationY realMath t) (initialView realMath)
        (initialProjection realMath)) vertices = some tri
      ∧ assemble (constantBlock (XMMatrixRotationY realMath t) (initialView realMath)
        (initialProjection realMath)) vertices.reverse = some tri.reversed
      ∧ tri.insideClipVolume = true
      ∧ (0 < tri.pa 3 ∧ 0 < tri.pb 3 ∧ 0 < tri.pc 3)
      ∧ ∃ d : ℝ, 0 < d ∧ tri.signedArea2 = (1 + 10 * Real.cos t) * d := by
  have hc1 := Real.neg_one_le_cos t
  have hc2 := Real.cos_le_one t
  have hs1 := Real.neg_one_le_sin t
  have hs2 := Real.sin_le_one t
  have hsc := Real.sin_sq_add_cos_sq t
  have ha : 0 < 1 / 2 * Real.cos t - 0 * Real.sin t + 5 := by linarith
  have hb : 0 < 1 / 2 * Real.cos t - 1 / 2 * Real.sin t + 5 := by linarith
  have hcc : 0 < 1 / 2 * Real.cos t - -(1 / 2) * Real.sin t + 5 := by linarith
  have ia := insideClipVolume_real t 0 (1 / 2) (1 / 2) (by linarith) (by linarith)
    (by linarith) (by linarith) (by norm_num) (by norm_num)
  have ib := insideClipVolume_real t (1 / 2) (-(1 / 2)) (1 / 2) (by linarith) (by linarith)
    (by linarith) (by linarith) (by norm_num) (by norm_num)
  have ic := insideClipVolume_real t (-(1 / 2)) (-(1 / 2)) (1 / 2) (by linarith) (by linarith)
    (by linarith) (by linarith) (by norm_num) (by norm_num)
  refine ⟨⟨vertexStage (constantBlock (XMMatrixRotationY realMath t) (initialView realMath)
        (initialProjection realMath)) ⟨0, 1 / 2, 1 / 2⟩,
      vertexStage (constantBlock (XMMatrixRotationY realMath t) (initialView realMath)
        (initialProjection realMath)) ⟨1 / 2, -(1 / 2), 1 / 2⟩,
      vertexStage (constantBlock (XMMatrixRotationY realMath t) (initialView realMath)
        (initialProjection realMath)) ⟨-(1 / 2), -(1 / 2), 1 / 2⟩⟩, rfl, rfl, ?_, ?_,
    45000 / ((1 / 2 * Real.cos t - 0 * Real.sin t + 5)
      * (1 / 2 * Real.cos t - 1 / 2 * Real.sin t + 5)
      * (1 / 2 * Real.cos t - -(1 / 2) * Real.sin t + 5)), by positivity, ?_⟩
  · simp only [Triangle.insideClipVolume, Bool.and_eq_true]
    exact ⟨⟨ia, ib⟩, ic⟩
  · simp only [insideClipVolume, Bool.and_eq_true, decide_eq_true_eq] at ia ib ic
    exact ⟨ia.1.1.1.1.1.1, ib.1.1.1.1.1.1, ic.1.1.1.1.1.1⟩
  rw [signedArea2_of_clip
    ⟨vertexStage (constantBlock (XMMatrixRotationY realMath t) (initialView realMath)
        (initialProjection realMath)) ⟨0, 1 / 2, 1 / 2⟩,
      vertexStage (constantBlock (XMMatrixRotationY realMath t) (initialView realMath)
        (initialProjection realMath)) ⟨1 / 2, -(1 / 2), 1 / 2⟩,
      vertexStage (constantBlock (XMMatrixRotationY realMath t) (initialView realMath)
        (initialProjection realMath)) ⟨-(1 / 2), -(1 / 2), 1 / 2⟩⟩
    _ _ _ _ _ _ _ _ _ ha.ne' hb.ne' hcc.ne'
    (screenPosition_real t 0 (1 / 2) (1 / 2) ⟨1, 0, 0, 1⟩)
    (screenPosition_real t (1 / 2) (-(1 / 2)) (1 / 2) ⟨0, 1, 0, 1⟩)
    (screenPosition_real t (-(1 / 2)) (-(1 / 2)) (1 / 2) ⟨0, 0, 1, 1⟩)]
  have hdet : (0 * Real.cos t + 1 / 2 * Real.sin t) * (3 / 4)
        * (-(1 / 2) * (1 / 2 * Real.cos t - -(1 / 2) * Real.sin t + 5)
            - -(1 / 2) * (1 / 2 * Real.cos t - 1 / 2 * Real.sin t + 5))
      - 1 / 2 * ((1 / 2 * Real.cos t + 1 / 2 * Real.sin t) * (3 / 4)
            * (1 / 2 * Real.cos t - -(1 / 2) * Real.sin t + 5)
          - (-(1 / 2) * Real.cos t + 1 / 2 * Real.sin t) * (3 / 4)
            * (1 / 2 * Real.cos t - 1 / 2 * Real.sin t + 5))
      + (1 / 2 * Real.cos t - 0 * Real.sin t + 5)
          * ((1 / 2 * Real.cos t + 1 / 2 * Real.sin t) * (3 / 4) * -(1 / 2)
            - (-(1 / 2) * Real.cos t + 1 / 2 * Real.sin t) * (3 / 4) * -(1 / 2))
      = -(3 / 8) * (1 + 10 * Real.cos t) := by
    linear_combination (-(3 / 8) : ℝ) * hsc
  rw [hdet]
  ring

theorem Triangle.signedArea2_reversed (tri : Triangle ℝ) :
    tri.reversed.signedArea2 = -tri.signedArea2 := by
  simp only [Triangle.signedArea2, Triangle.reversed, Triangle.a, Triangle.b, Triangle.c]
  ring

theorem Triangle.insideClipVolume_reversed (tri : Triangle ℝ) :
    tri.reversed.insideClipVolume = tri.insideClipVolume := by
  simp only [Triangle.insideClipVolume, Triangle.reversed]
  cases DX11.insideClipVolume tri.pa <;> cases DX11.insideClipVolume tri.pb <;>
    cases DX11.insideClipVolume tri.pc <;> rfl

end Real


/-! ## Helper lemmas: the clock of `Render` -/

theorem renderClock_started (ts r : Nat) (hts : ts ≠ 0) (hle : ts ≤ r) (hr : r < 2 ^ 64) :
    renderClock ts r = (ts, r - ts) := by
  simp only [renderClock, if_neg hts]
  norm_num at hr ⊢
  omega

theorem renderClock_first (r : Nat) : renderClock 0 r = (r, 0) := by
  simp only [renderClock, if_true]
  norm_num

theorem renderClockRun_started (ts : Nat) (hts : ts ≠ 0) (rs : List Nat)
    (hle : ∀ r ∈ rs, ts ≤ r) (hbits : ∀ r ∈ rs, r < 2 ^ 64) :
    renderClockRun ts rs = rs.map fun r => (ts, r - ts) := by
  induction rs with
  | nil => rfl
  | cons r rs ih =>
    have h := renderClock_started ts r hts (hle r (List.mem_cons_self _ _))
      (hbits r (List.mem_cons_self _ _))
    simp only [renderClockRun, List.map_cons, h]
    rw [ih (fun x hx => hle x (List.mem_cons_of_mem _ hx))
      (fun x hx => hbits x (List.mem_cons_of_mem _ hx))]

theorem renderClockRun_elapsed_sorted (rs : List Nat) (hsorted : rs.Sorted (· ≤ ·))
    (hbits : ∀ r ∈ rs, r < 2 ^ 64) :
    ((renderClockRun 0 rs).map Prod.snd).Sorted (· ≤ ·) := by
  induction rs with
  | nil => simp [renderClockRun]
  | cons r rs ih =>
    have hbits' : ∀ x ∈ rs, x < 2 ^ 64 := fun x hx => hbits x (List.mem_cons_of_mem _ hx)
    obtain ⟨hle, hs⟩ := List.sorted_cons.mp hsorted
    simp only [renderClockRun, renderClock_first r, List.map_cons]
    by_cases h0 : r = 0
    · subst h0
      exact List.sorted_cons.mpr ⟨fun b _ => Nat.zero_le b, ih hs hbits'⟩
    · rw [renderClockRun_started r h0 rs hle hbits']
      refine List.sorted_cons.mpr ⟨fun b _ => Nat.zero_le b, ?_⟩
      simp only [List.map_map]
      exact List.Pairwise.map _ (fun a b hab => Nat.sub_le_sub_right hab r) hs

/-! ## Helper lemmas: the initialisation and the loop -/

theorem XMMatrixTranspose_involutive {K : Type} (M : XMMATRIX K) :
    XMMatrixTranspose (XMMatrixTranspose M) = M := by
  ext i j
  rfl

section Generic

variable {K : Type} [LinearOrderedField K]

theorem InitD3D_calls (drv : Driver) (hWnd : Option Handle) (s : State K) (c : Call K)
    (hc : c ∈ (InitD3D drv hWnd s).2.calls) :
    c ∈ s.calls ∨ c = .D3D11CreateDeviceAndSwapChain featureLevels (swapChainDesc hWnd)
      ∨ c = .GetBuffer ∨ c = .CreateRenderTargetView
      ∨ (∃ r, c = .OMSetRenderTargets r) ∨ c = .RSSetViewports viewport := by
  generalize hres : InitD3D drv hWnd s = res at hc
  unfold InitD3D at hres
  simp only at hres
  repeat' split at hres
  all_goals (subst hres; simp at hc; aesop)

theorem InitD3D_calls_inner (drv : Driver) (hWnd : Option Handle) (s : State K) (c : Call K)
    (hc : c ∈ (InitD3D drv hWnd s).2.calls) : c ∈ s.calls ∨ c.byWinMain = false := by
  rcases InitD3D_calls drv hWnd s c hc with h | h | h | h | ⟨r, h⟩ | h
  · exact Or.inl h
  all_goals (subst h; exact Or.inr rfl)

theorem InitD3D_succeeded (drv : Driver) (hWnd : Option Handle) (s : State K) (hr : HRESULT)
    (h : (InitD3D drv hWnd s).1 = .returned hr) (hok : FAILED hr = false) :
    (InitD3D drv hWnd s).2.g_pImmediateContext.isSome = true
    ∧ (InitD3D drv hWnd s).2.g_pSwapChain.isSome = true
    ∧ (InitD3D drv hWnd s).2.g_pd3dDevice.isSome = true := by
  generalize hres : InitD3D drv hWnd s = res at h ⊢
  unfold InitD3D at hres
  simp only at hres
  repeat' split at hres
  all_goals (subst hres; simp_all)

theorem InitPipeline_calls_inner (sm : ScalarMath K) (drv : Driver) (s : State K) (c : Call K)
    (hc : c ∈ (InitPipeline sm drv s).2.calls) : c ∈ s.calls ∨ c.byWinMain = false := by
  generalize hres : InitPipeline sm drv s = res at hc
  unfold InitPipeline at hres
  simp only at hres
  repeat' split at hres
  all_goals (subst hres; simp at hc; aesop)

theorem InitPipeline_pointers (sm : ScalarMath K) (drv : Driver) (s : State K) :
    (InitPipeline sm drv s).2.g_pImmediateContext = s.g_pImmediateContext
    ∧ (InitPipeline sm drv s).2.g_pSwapChain = s.g_pSwapChain := by
  generalize hres : InitPipeline sm drv s = res
  unfold InitPipeline at hres
  simp only at hres
  repeat' split at hres
  all_goals (subst hres; simp)

/-- A successful `InitPipeline` has stored the identity world matrix, the view
and projection matrices and the three vertices. -/
theorem InitPipeline_succeeded (sm : ScalarMath K) (drv : Driver) (s : State K) (hr : HRESULT)
    (h : (InitPipeline sm drv s).1 = .returned hr) (hok : FAILED hr = false) :
    (InitPipeline sm drv s).2.g_World = XMMatrixIdentity
    ∧ (InitPipeline sm drv s).2.g_View = initialView sm
    ∧ (InitPipeline sm drv s).2.g_Projection = initialProjection sm
    ∧ (InitPipeline sm drv s).2.vertexBufferData = vertices := by
  generalize hres : InitPipeline sm drv s = res at h ⊢
  unfold InitPipeline at hres
  simp only at hres
  repeat' split at hres
  all_goals (subst hres; simp_all)

theorem Render_returned (sm : ScalarMath K) (tick : Nat) (s : State K)
    (hctx : s.g_pImmediateContext.isSome = true) (hsc : s.g_pSwapChain.isSome = true) :
    (Render sm tick s).1 = .returned ()
    ∧ (Render sm tick s).2.g_pImmediateContext = s.g_pImmediateContext
    ∧ (Render sm tick s).2.g_pSwapChain = s.g_pSwapChain := by
  obtain ⟨c, hc⟩ := Option.isSome_iff_exists.mp hctx
  obtain ⟨sc, hsc⟩ := Option.isSome_iff_exists.mp hsc
  simp [Render, hc, hsc]

/-- What one call of `Render` leaves behind: the clock of `renderClock`, the
world matrix of the elapsed seconds, the untouched view and projection, and the
uploaded block. -/
theorem Render_state (sm : ScalarMath K) (tick : Nat) (s : State K)
    (hctx : s.g_pImmediateContext.isSome = true) :
    (Render sm tick s).2.timeStart = (renderClock s.timeStart tick).1
    ∧ (Render sm tick s).2.g_World
        = XMMatrixRotationY sm (((renderClock s.timeStart tick).2 : K) / 1000)
    ∧ (Render sm tick s).2.g_View = s.g_View
    ∧ (Render sm tick s).2.g_Projection = s.g_Projection
    ∧ (Render sm tick s).2.vertexBufferData = s.vertexBufferData
    ∧ (Render sm tick s).2.constantBufferData
        = some (constantBlock (XMMatrixRotationY sm (((renderClock s.timeStart tick).2 : K) / 1000))
            s.g_View s.g_Projection)
    ∧ Call.UpdateSubresource
          (constantBlock (XMMatrixRotationY sm (((renderClock s.timeStart tick).2 : K) / 1000))
            s.g_View s.g_Projection) ∈ (Render sm tick s).2.calls
    ∧ Call.IASetVertexBuffers sizeofSimpleVertex 0 ∈ (Render sm tick s).2.calls := by
  obtain ⟨c, hc⟩ := Option.isSome_iff_exists.mp hctx
  cases hsc : s.g_pSwapChain <;> simp [Render, hc, hsc]

theorem readyState_spec (sm : ScalarMath K) :
    (readyState sm).g_pImmediateContext.isSome = true
    ∧ (readyState sm).g_pSwapChain.isSome = true
    ∧ (readyState sm).g_World = XMMatrixIdentity
    ∧ (readyState sm).g_View = initialView sm
    ∧ (readyState sm).g_Projection = initialProjection sm
    ∧ (readyState sm).vertexBufferData = vertices
    ∧ (readyState sm).timeStart = 0 := by
  simp [readyState, InitPipeline, InitD3D, workingDriver, atInitD3D, State.initial, FAILED,
    storeOut, S_OK]

theorem messageLoop_at_quit (sm : ScalarMath K) (inputs : List Input) (msg : MSG) (s : State K)
    (h : msg.message = WM_QUIT) :
    messageLoop sm inputs msg s = (.returned (intOfWPARAM msg.wParam), s) := by
  cases inputs with
  | nil => simp only [messageLoop, h, ne_eq, not_true_eq_false, if_false]
  | cons i rest =>
    cases i <;> simp only [messageLoop, h, ne_eq, not_true_eq_false, if_false]

theorem messageLoop_quit (sm : ScalarMath K) (wParam : Nat) (rest : List Input) :
    ∀ (pre : List Input) (msg : MSG) (s : State K),
      msg.message ≠ WM_QUIT →
      s.g_pImmediateContext.isSome = true → s.g_pSwapChain.isSome = true →
      (∀ m, Input.message m ∈ pre → m.message ≠ WM_QUIT) →
      (messageLoop sm (pre ++ .message ⟨WM_QUIT, wParam⟩ :: rest) msg s).1
        = .returned (intOfWPARAM wParam) := by
  intro pre
  induction pre with
  | nil =>
    intro msg s hmsg _ _ _
    simp only [List.nil_append, messageLoop, hmsg, ne_eq, not_false_eq_true, if_true]
    rw [messageLoop_at_quit sm rest _ _ rfl]
  | cons i pre ih =>
    intro msg s hmsg hctx hsc hpre
    have hpre' : ∀ m, Input.message m ∈ pre → m.message ≠ WM_QUIT :=
      fun m hm => hpre m (List.mem_cons_of_mem _ hm)
    cases i with
    | message m =>
      have hm : m.message ≠ WM_QUIT := hpre m (List.mem_cons_self _ _)
      simp only [List.cons_append, messageLoop, hmsg, ne_eq, not_false_eq_true, if_true]
      exact ih m _ hm hctx hsc hpre'
    | idle tick =>
      simp only [List.cons_append, messageLoop, hmsg, ne_eq, not_false_eq_true, if_true]
      obtain ⟨h1, h2, h3⟩ := Render_returned sm tick ((s.log .PeekMessage).log .Render) hctx hsc
      generalize Render sm tick ((s.log .PeekMessage).log .Render) = res at h1 h2 h3
      obtain ⟨o, s'⟩ := res
      simp only at h1 h2 h3
      subst h1
      simp only
      exact ih msg s' hmsg (by rw [h2]; exact hctx) (by rw [h3]; exact hsc) hpre'

theorem intOfWPARAM_small (wParam : Nat) (h : wParam < 2 ^ 31) :
    intOfWPARAM wParam = wParam := by
  unfold intOfWPARAM
  norm_num at h ⊢
  omega

theorem intOfWPARAM_WPARAMofInt (n : Int) (hlo : -2 ^ 31 ≤ n) (hhi : n < 2 ^ 31) :
    intOfWPARAM (WPARAMofInt n) = n := by
  unfold intOfWPARAM WPARAMofInt
  norm_num at hlo hhi ⊢
  omega

theorem atInitD3D_calls (hWnd : Option Handle) (c : Call K)
    (hc : c ∈ (atInitD3D hWnd : State K).calls) :
    c = .RegisterClassExW ∨ c = .CreateWindowW 800 600 ∨ c = .ShowWindow ∨ c = .UpdateWindow
      ∨ c = .InitD3D := by
  simpa [atInitD3D, State.initial] using hc

theorem wWinMain_after_window (sm : ScalarMath K) (drv : Driver) (inputs : List Input)
    (w : Handle) (hw : drv.CreateWindowW = some w) :
    wWinMain sm drv inputs =
      match InitD3D drv (some w) (atInitD3D (some w) : State K) with
      | (.accessViolation, s) => (.crashed, s)
      | (.returned hr, s) =>
        if FAILED hr then (.returned 0, s) else
        match InitPipeline sm drv (s.log .InitPipeline) with
        | (.accessViolation, s) => (.crashed, s)
        | (.returned hr, s) =>
          if FAILED hr then (.returned 0, s) else messageLoop sm inputs ⟨0, 0⟩ s := by
  simp only [wWinMain, atInitD3D, hw, State.setWindow_g_hWnd, Option.isNone_some,
    State.log_g_hWnd]
  rfl

end Generic


/-! ## The claims -/

/-- C1. For every real elapsed time `t` (in particular every `t ≥ 0`), the
world matrix `XMMatrixRotationY(t)` that `Render` computes has the rows
(cos t, 0, -sin t, 0), (0, 1, 0, 0), (sin t, 0, cos t, 0), (0, 0, 0, 1); its
upper-left 3×3 block is orthogonal with determinant 1, its translation row is
(0, 0, 0), it maps the Y axis to itself, and the matrices for `t` and for
`t + 2π` are equal.  A call of `Render` that has an immediate context stores in
`g_World` this matrix for the elapsed milliseconds of its clock divided by
1000, which is not negative. -/
theorem C1_world_matrix_is_pure_Y_rotation (t : ℝ) :
    XMMatrixRotationY realMath t
      = Matrix.of ![![Real.cos t, 0, -Real.sin t, 0], ![0, 1, 0, 0],
                    ![Real.sin t, 0, Real.cos t, 0], ![0, 0, 0, 1]]
    ∧ upperLeft3 (XMMatrixRotationY realMath t) * (upperLeft3 (XMMatrixRotationY realMath t))ᵀ = 1
    ∧ (upperLeft3 (XMMatrixRotationY realMath t))ᵀ * upperLeft3 (XMMatrixRotationY realMath t) = 1
    ∧ (upperLeft3 (XMMatrixRotationY realMath t)).det = 1
    ∧ translationRow (XMMatrixRotationY realMath t) = ![0, 0, 0]
    ∧ XMVector4Transform (XMVectorSet 0 1 0 0) (XMMatrixRotationY realMath t)
        = XMVectorSet 0 1 0 0
    ∧ XMMatrixRotationY realMath (t + 2 * Real.pi) = XMMatrixRotationY realMath t
    ∧ (∀ (s : State ℝ) (timeCur : Nat), s.g_pImmediateContext.isSome = true →
        (Render realMath timeCur s).2.g_World
          = XMMatrixRotationY realMath (((renderClock s.timeStart timeCur).2 : ℝ) / 1000)
        ∧ (0 : ℝ) ≤ ((renderClock s.timeStart timeCur).2 : ℝ) / 1000) := by
  have hsc : Real.sin t * Real.sin t + Real.cos t * Real.cos t = 1 := by
    have := Real.sin_sq_add_cos_sq t
    nlinarith [this]
  have hcs : Real.cos t * Real.cos t + Real.sin t * Real.sin t = 1 := by linarith
  refine ⟨rfl, ?_, ?_, ?_, ?_, ?_, ?_, ?_⟩
  · ext i j
    simp only [Matrix.mul_apply, Fin.sum_univ_three, Matrix.transpose_apply]
    fin_cases i <;> fin_cases j <;>
      simp [upperLeft3, XMMatrixRotationY, realMath, hsc, hcs, mul_comm]
  · ext i j
    simp only [Matrix.mul_apply, Fin.sum_univ_three, Matrix.transpose_apply]
    fin_cases i <;> fin_cases j <;>
      simp [upperLeft3, XMMatrixRotationY, realMath, hsc, hcs, mul_comm]
  · simp [upperLeft3, XMMatrixRotationY, realMath, Matrix.det_fin_three]
    linarith
  · ext j
    fin_cases j <;> simp [translationRow, XMMatrixRotationY, vecHead, vecTail]
  · ext j
    fin_cases j <;> simp [XMVector4Transform, XMVectorSet, XMMatrixRotationY, vecHead, vecTail]
  · simp [XMMatrixRotationY, realMath, Real.sin_add_two_pi, Real.cos_add_two_pi]
  · intro s timeCur hctx
    exact ⟨(Render_state realMath timeCur s hctx).2.1, by positivity⟩

/-- C1 at the first frame after a successful start-up, with the clock at 1000:
the elapsed time is 0 and the world matrix is the rotation by 0. -/
theorem C1_witness :
    (Render realMath 1000 (readyState realMath)).2.g_World = XMMatrixRotationY realMath 0 := by
  have h := ((C1_world_matrix_is_pure_Y_rotation 0).2.2.2.2.2.2.2 (readyState realMath) 1000
    (readyState_spec realMath).1).1
  rw [(readyState_spec realMath).2.2.2.2.2.2, renderClock_first] at h
  simpa using h

/-- C2. The view matrix of `InitPipeline` maps the eye point (0, 0, -5) to the
view-space origin and the world origin to (0, 0, 5), keeps the directions +Z
and +Y; the world origin, transformed by view and projection, has `w > 0` and
x/w = y/w = 0, which the 800×600 viewport maps to the pixel position
(400, 300). -/
theorem C2_view_matrix_and_projected_origin :
    XMVector4Transform (XMVectorSet 0 0 (-5) 1) (initialView realMath) = XMVectorSet 0 0 0 1
    ∧ XMVector4Transform (XMVectorSet 0 0 0 1) (initialView realMath) = XMVectorSet 0 0 5 1
    ∧ XMVector4Transform (XMVectorSet 0 0 1 0) (initialView realMath) = XMVectorSet 0 0 1 0
    ∧ XMVector4Transform (XMVectorSet 0 1 0 0) (initialView realMath) = XMVectorSet 0 1 0 0
    ∧ 0 < XMVector4Transform (XMVector4Transform (XMVectorSet 0 0 0 1) (initialView realMath))
          (initialProjection realMath) 3
    ∧ perspectiveDivide (XMVector4Transform
          (XMVector4Transform (XMVectorSet 0 0 0 1) (initialView realMath))
          (initialProjection realMath)) = (0, 0)
    ∧ (viewport : D3D11_VIEWPORT ℝ).toScreen (perspectiveDivide (XMVector4Transform
          (XMVector4Transform (XMVectorSet 0 0 0 1) (initialView realMath))
          (initialProjection realMath))) = (400, 300) := by
  rw [initialView_real, initialProjection_real]
  refine ⟨?_, ?_, ?_, ?_, ?_, ?_, ?_⟩
  · ext j; fin_cases j <;> simp [XMVector4Transform, XMVectorSet, vecHead, vecTail]
  · ext j; fin_cases j <;> simp [XMVector4Transform, XMVectorSet, vecHead, vecTail]
  · ext j; fin_cases j <;> simp [XMVector4Transform, XMVectorSet, vecHead, vecTail]
  · ext j; fin_cases j <;> simp [XMVector4Transform, XMVectorSet, vecHead, vecTail]
  · simp [XMVector4Transform, XMVectorSet, vecHead, vecTail]
  · simp [perspectiveDivide, XMVector4Transform, XMVectorSet, vecHead, vecTail]
  · simp [D3D11_VIEWPORT.toScreen, viewport, perspectiveDivide, XMVector4Transform, XMVectorSet,
      vecHead, vecTail]
    norm_num

/-- C3. The point at world-space (0, 0, 0.5), transformed by the view and the
projection matrix of `InitPipeline`, has `w > 0`, and its x/w and y/w lie in
[-1, 1]. -/
theorem C3_point_projects_inside_viewport :
    0 < XMVector4Transform (XMVector4Transform (XMVectorSet 0 0 (1 / 2) 1) (initialView realMath))
          (initialProjection realMath) 3
    ∧ -1 ≤ (perspectiveDivide (XMVector4Transform
          (XMVector4Transform (XMVectorSet 0 0 (1 / 2) 1) (initialView realMath))
          (initialProjection realMath))).1
    ∧ (perspectiveDivide (XMVector4Transform
          (XMVector4Transform (XMVectorSet 0 0 (1 / 2) 1) (initialView realMath))
          (initialProjection realMath))).1 ≤ 1
    ∧ -1 ≤ (perspectiveDivide (XMVector4Transform
          (XMVector4Transform (XMVectorSet 0 0 (1 / 2) 1) (initialView realMath))
          (initialProjection realMath))).2
    ∧ (perspectiveDivide (XMVector4Transform
          (XMVector4Transform (XMVectorSet 0 0 (1 / 2) 1) (initialView realMath))
          (initialProjection realMath))).2 ≤ 1 := by
  rw [initialView_real, initialProjection_real]
  refine ⟨?_, ?_, ?_, ?_, ?_⟩ <;>
    simp [perspectiveDivide, XMVector4Transform, XMVectorSet, vecHead, vecTail]
  norm_num

/-- C4. The three vertices of `vertices` in array order, under the identity
world matrix and the view and projection matrices of `InitPipeline`, lie in
front of the camera inside the clip volume and are wound clockwise on screen:
the triangle is front-facing, not culled and rasterized.  In reversed order
they are wound counter-clockwise: the triangle is culled and not rasterized. -/
theorem C4_triangle_winding_and_culling :
    ∃ tri tri' : Triangle ℝ,
      assemble (constantBlock XMMatrixIdentity (initialView realMath)
        (initialProjection realMath)) vertices = some tri
      ∧ tri.clockwise = true ∧ tri.frontFacing = true ∧ tri.culled = false
      ∧ tri.rasterized = true
      ∧ assemble (constantBlock XMMatrixIdentity (initialView realMath)
        (initialProjection realMath)) vertices.reverse = some tri'
      ∧ tri'.counterClockwise = true ∧ tri'.frontFacing = false ∧ tri'.culled = true
      ∧ tri'.rasterized = false
      ∧ tri.insideClipVolume = true
      ∧ (0 < tri.pa 3 ∧ 0 < tri.pb 3 ∧ 0 < tri.pc 3)
      ∧ tri'.insideClipVolume = true
      ∧ (0 < tri'.pa 3 ∧ 0 < tri'.pb 3 ∧ 0 < tri'.pc 3) := by
  obtain ⟨tri, h1, h2, hin, hw, d, hd, harea⟩ := rotated_signedArea2 0
  rw [XMMatrixRotationY_zero] at h1 h2
  rw [Real.cos_zero] at harea
  have hpos : 0 < tri.signedArea2 := by rw [harea]; positivity
  have hneg : tri.reversed.signedArea2 < 0 := by
    rw [Triangle.signedArea2_reversed]; linarith
  have hin' : tri.reversed.insideClipVolume = true := by
    rw [Triangle.insideClipVolume_reversed]; exact hin
  refine ⟨tri, tri.reversed, h1, ?_, ?_, ?_, ?_, h2, ?_, ?_, ?_, ?_, hin, hw, hin',
    ⟨hw.2.2, hw.2.1, hw.1⟩⟩
  · simp [Triangle.clockwise, hpos]
  · simp [Triangle.frontFacing, Triangle.clockwise, hpos]
  · simp [Triangle.culled, Triangle.counterClockwise, hpos.le]
  · simp [Triangle.rasterized, Triangle.culled, Triangle.counterClockwise, hpos.le, hpos.ne',
      hin]
  · simp [Triangle.counterClockwise, hneg]
  · simp [Triangle.frontFacing, Triangle.clockwise, hneg.le]
  · simp [Triangle.culled, Triangle.counterClockwise, hneg]
  · simp [Triangle.rasterized, Triangle.culled, Triangle.counterClockwise, hneg]


/-- C5. The block that `Render` uploads with `UpdateSubresource` is
(transpose(world), transpose(view), transpose(projection)), in that field
order, of the three matrices held in `g_World`, `g_View` and `g_Projection`
at that moment (the view and the projection are those `Render` was entered
with): entry (i, j) of each uploaded matrix is entry (j, i) of the matrix on
the CPU side.  This holds for every triple of matrices, and transposing each
uploaded matrix again gives back the matrix it came from. -/
theorem C5_uploaded_block_is_the_transposes {K : Type} [LinearOrderedField K]
    (sm : ScalarMath K) (timeCur : Nat) (s : State K)
    (hctx : s.g_pImmediateContext.isSome = true) :
    (Render sm timeCur s).2.constantBufferData
      = some { mWorld := XMMatrixTranspose (Render sm timeCur s).2.g_World,
               mView := XMMatrixTranspose (Render sm timeCur s).2.g_View,
               mProjection := XMMatrixTranspose (Render sm timeCur s).2.g_Projection }
    ∧ Call.UpdateSubresource
        { mWorld := XMMatrixTranspose (Render sm timeCur s).2.g_World,
          mView := XMMatrixTranspose (Render sm timeCur s).2.g_View,
          mProjection := XMMatrixTranspose (Render sm timeCur s).2.g_Projection }
        ∈ (Render sm timeCur s).2.calls
    ∧ (Render sm timeCur s).2.g_View = s.g_View
    ∧ (Render sm timeCur s).2.g_Projection = s.g_Projection
    ∧ (∀ world view projection : XMMATRIX K,
        constantBlock world view projection
          = { mWorld := XMMatrixTranspose world, mView := XMMatrixTranspose view,
              mProjection := XMMatrixTranspose projection }
        ∧ XMMatrixTranspose (constantBlock world view projection).mWorld = world
        ∧ XMMatrixTranspose (constantBlock world view projection).mView = view
        ∧ XMMatrixTranspose (constantBlock world view projection).mProjection = projection)
    ∧ (∃ cb : ConstantBuffer K,
        (Render sm timeCur s).2.constantBufferData = some cb
        ∧ Call.UpdateSubresource cb ∈ (Render sm timeCur s).2.calls
        ∧ (∀ i j : Fin 4, cb.mWorld i j = (Render sm timeCur s).2.g_World j i)
        ∧ (∀ i j : Fin 4, cb.mView i j = s.g_View j i)
        ∧ (∀ i j : Fin 4, cb.mProjection i j = s.g_Projection j i))
    ∧ (∀ (world view projection : XMMATRIX K) (i j : Fin 4),
        (constantBlock world view projection).mWorld i j = world j i
        ∧ (constantBlock world view projection).mView i j = view j i
        ∧ (constantBlock world view projection).mProjection i j = projection j i)
    ∧ (∀ (M : XMMATRIX K) (i j : Fin 4), XMMatrixTranspose M i j = M j i) := by
  obtain ⟨_, hw, hv, hp, _, hcb, hcall, _⟩ := Render_state sm timeCur s hctx
  refine ⟨?_, ?_, hv, hp, ?_, ?_, ?_, ?_⟩
  · rw [hcb, hw, hv, hp]; rfl
  · rw [hw, hv, hp]; exact hcall
  · intro world view projection
    exact ⟨rfl, XMMatrixTranspose_involutive _, XMMatrixTranspose_involutive _,
      XMMatrixTranspose_involutive _⟩
  · refine ⟨_, hcb, hcall, ?_, ?_, ?_⟩
    · intro i j; rw [hw]; rfl
    · intro i j; rfl
    · intro i j; rfl
  · intro world view projection i j
    exact ⟨rfl, rfl, rfl⟩
  · intro M i j
    rfl

/-- C5 at the first frame after a successful start-up, with the clock at
1000: the uploaded view matrix carries the camera distance 5, which the CPU
side holds at row 3, column 2, at row 2, column 3, and a 0 at row 3,
column 2. -/
theorem C5_witness :
    ∃ cb : ConstantBuffer ℝ,
      (Render realMath 1000 (readyState realMath)).2.constantBufferData = some cb
      ∧ cb.mView 2 3 = 5 ∧ cb.mView 3 2 = 0 := by
  obtain ⟨cb, h1, _, _, hv, _⟩ :=
    (C5_uploaded_block_is_the_transposes realMath 1000 (readyState realMath)
      (readyState_spec realMath).1).2.2.2.2.2.1
  refine ⟨cb, h1, ?_, ?_⟩
  · rw [hv, (readyState_spec realMath).2.2.2.1, initialView_real]
    simp [vecHead, vecTail]
  · rw [hv, (readyState_spec realMath).2.2.2.1, initialView_real]
    simp [vecHead, vecTail]

/-- C6. The offsets in the input-layout array of `InitPipeline` are the offsets
of the fields of `SimpleVertex`: POSITION (12 bytes) at 0, the offset of `Pos`,
and COLOR (16 bytes) at 12, the offset of `Color`, which is the size of `Pos`.
Every byte of the 28-byte vertex is read by exactly one element, and no
element reads beyond the vertex. -/
theorem C6_input_layout_matches_vertex_record :
    layout.map (fun e => e.AlignedByteOffset) = fieldOffsets SimpleVertex.fields
    ∧ layout.map (fun e => e.AlignedByteOffset) = [0, 12]
    ∧ layout.map (fun e => e.Format.byteSize) = SimpleVertex.fields.map TypeLayout.size
    ∧ layout.map (fun e => e.Format.byteSize) = [12, 16]
    ∧ XMFLOAT3.layout.size = 12
    ∧ sizeofSimpleVertex = 28
    ∧ (∀ b, b < sizeofSimpleVertex → (layout.filter fun e => e.covers b).length = 1)
    ∧ (∀ e ∈ layout, ∀ b, e.covers b = true → b < sizeofSimpleVertex) := by
  refine ⟨by decide, by decide, by decide, by decide, by decide, by decide, by decide, ?_⟩
  intro e he b hb
  simp only [layout, List.mem_cons, List.mem_singleton, List.not_mem_nil, or_false] at he
  have hs : sizeofSimpleVertex = 28 := by decide
  rcases he with rfl | rfl <;>
    simp [D3D11_INPUT_ELEMENT_DESC.covers, DXGI_FORMAT.byteSize] at hb <;> omega

/-- C7, as amended. For every non-decreasing sequence of 64-bit clock readings
r₁, r₂, …: when the first reading is not 0, every call keeps the baseline
`timeStart = r₁` and computes the elapsed milliseconds r_k - r₁; whatever the
first reading, the first call computes 0 and the elapsed milliseconds never
decrease from one call to the next. -/
theorem C7_elapsed_time_since_first_call (r₁ : Nat) (rest : List Nat)
    (hsorted : (r₁ :: rest).Sorted (· ≤ ·)) (hbits : ∀ r ∈ r₁ :: rest, r < 2 ^ 64) :
    (r₁ ≠ 0 → renderClockRun 0 (r₁ :: rest) = (r₁ :: rest).map fun r => (r₁, r - r₁))
    ∧ ((renderClockRun 0 (r₁ :: rest)).map Prod.snd).head? = some 0
    ∧ ((renderClockRun 0 (r₁ :: rest)).map Prod.snd).Sorted (· ≤ ·) := by
  have hbits' : ∀ x ∈ rest, x < 2 ^ 64 := fun x hx => hbits x (List.mem_cons_of_mem _ hx)
  obtain ⟨hle, _⟩ := List.sorted_cons.mp hsorted
  refine ⟨fun h1 => ?_, ?_, renderClockRun_elapsed_sorted _ hsorted hbits⟩
  · simp only [renderClockRun, renderClock_first r₁, List.map_cons, Nat.sub_self]
    rw [renderClockRun_started r₁ h1 rest hle hbits']
  · simp [renderClockRun, renderClock_first r₁]

/-- C7 as amended, at the readings 1000, 1016, 1033. -/
theorem C7_witness :
    renderClockRun 0 [1000, 1016, 1033] = [(1000, 0), (1000, 16), (1000, 33)] :=
  (C7_elapsed_time_since_first_call 1000 [1016, 1033] (by decide) (by decide)).1 (by decide)

/-- C7 as stated fails when the first reading is 0: for the non-decreasing
readings 0, 5 the second call moves the baseline from 0 to 5 and computes 0
elapsed milliseconds, not 5 - 0 = 5. -/
theorem C7_counterexample :
    [0, 5].Sorted (· ≤ ·) ∧ (∀ r ∈ [0, 5], r < 2 ^ 64)
    ∧ renderClockRun 0 [0, 5] = [(0, 0), (5, 0)]
    ∧ renderClockRun 0 [0, 5] ≠ [0, 5].map fun r => (0, r - 0) := by
  refine ⟨by decide, by decide, by decide, by decide⟩

/-- C8. When `D3D11CreateDeviceAndSwapChain` returns a failure code and stores
none of its three outputs, `InitD3D` returns exactly that code, the only call
it has made is that one, and the state is otherwise unchanged; called where
`wWinMain` calls it, it leaves the device, the immediate context, the swap
chain and the render-target view null. -/
theorem C8_InitD3D_fails_without_partial_state {K : Type} [LinearOrderedField K]
    (drv : Driver) (hWnd : Option Handle) (s : State K)
    (hfail : FAILED drv.D3D11CreateDeviceAndSwapChain.hr = true)
    (hsc : drv.D3D11CreateDeviceAndSwapChain.swapChain = none)
    (hdev : drv.D3D11CreateDeviceAndSwapChain.device = none)
    (hctx : drv.D3D11CreateDeviceAndSwapChain.context = none) :
    InitD3D drv hWnd s
      = (.returned drv.D3D11CreateDeviceAndSwapChain.hr,
         s.log (.D3D11CreateDeviceAndSwapChain featureLevels (swapChainDesc hWnd)))
    ∧ (InitD3D drv hWnd (atInitD3D hWnd : State K)).1
        = .returned drv.D3D11CreateDeviceAndSwapChain.hr
    ∧ (InitD3D drv hWnd (atInitD3D hWnd : State K)).2.g_pd3dDevice = none
    ∧ (InitD3D drv hWnd (atInitD3D hWnd : State K)).2.g_pImmediateContext = none
    ∧ (InitD3D drv hWnd (atInitD3D hWnd : State K)).2.g_pSwapChain = none
    ∧ (InitD3D drv hWnd (atInitD3D hWnd : State K)).2.g_pRenderTargetView = none
    ∧ (InitD3D drv hWnd (atInitD3D hWnd : State K)).2.calls
        = (atInitD3D hWnd : State K).calls
          ++ [.D3D11CreateDeviceAndSwapChain featureLevels (swapChainDesc hWnd)] := by
  have key : ∀ s : State K, InitD3D drv hWnd s
      = (.returned drv.D3D11CreateDeviceAndSwapChain.hr,
         s.log (.D3D11CreateDeviceAndSwapChain featureLevels (swapChainDesc hWnd))) := by
    intro s
    simp only [InitD3D, hfail, if_true]
    cases s
    simp [State.log, State.storeDeviceAndSwapChain, hsc, hdev, hctx, storeOut]
  refine ⟨key s, ?_, ?_, ?_, ?_, ?_, ?_⟩ <;> rw [key] <;> simp [atInitD3D, State.initial]

/-- C8 at a driver without feature level 11_0. -/
theorem C8_witness :
    InitD3D unsupportedDriver (some 1) (State.initial : State ℝ)
      = (.returned DXGI_ERROR_UNSUPPORTED,
         (State.initial : State ℝ).log
           (.D3D11CreateDeviceAndSwapChain featureLevels (swapChainDesc (some 1)))) :=
  (C8_InitD3D_fails_without_partial_state unsupportedDriver (some 1) State.initial
    (by decide) rfl rfl rfl).1


/-- C9. `wWinMain` returns 0 when the window cannot be created, when `InitD3D`
fails and when `InitPipeline` fails, each time before the message loop: no
`PeekMessage`, no `Render`, and no `InitPipeline` after a failed `InitD3D`.
When both initialisations succeed and a `WM_QUIT` message arrives, it returns
`(int)msg.wParam` of that message: the `wParam` itself when that is below
2^31, and in general the exit code `nExitCode` that `PostQuitMessage` stored in
it. -/
theorem C9_wWinMain_exit_codes {K : Type} [LinearOrderedField K]
    (sm : ScalarMath K) (drv : Driver) (inputs : List Input) :
    (drv.CreateWindowW = none →
      (wWinMain sm drv inputs).1 = .returned 0
      ∧ (wWinMain sm drv inputs).2.calls = [.RegisterClassExW, .CreateWindowW 800 600])
    ∧ (∀ (w : Handle) (hr : HRESULT), drv.CreateWindowW = some w →
        (InitD3D drv (some w) (atInitD3D (some w) : State K)).1 = .returned hr →
        FAILED hr = true →
        (wWinMain sm drv inputs).1 = .returned 0
        ∧ Call.InitPipeline ∉ (wWinMain sm drv inputs).2.calls
        ∧ Call.PeekMessage ∉ (wWinMain sm drv inputs).2.calls
        ∧ Call.Render ∉ (wWinMain sm drv inputs).2.calls)
    ∧ (∀ (w : Handle) (hr hr' : HRESULT), drv.CreateWindowW = some w →
        (InitD3D drv (some w) (atInitD3D (some w) : State K)).1 = .returned hr →
        FAILED hr = false →
        (InitPipeline sm drv
          ((InitD3D drv (some w) (atInitD3D (some w) : State K)).2.log .InitPipeline)).1
            = .returned hr' →
        FAILED hr' = true →
        (wWinMain sm drv inputs).1 = .returned 0
        ∧ Call.PeekMessage ∉ (wWinMain sm drv inputs).2.calls
        ∧ Call.Render ∉ (wWinMain sm drv inputs).2.calls)
    ∧ (∀ (w : Handle) (hr hr' : HRESULT) (pre rest : List Input) (wParam : Nat),
        drv.CreateWindowW = some w →
        (InitD3D drv (some w) (atInitD3D (some w) : State K)).1 = .returned hr →
        FAILED hr = false →
        (InitPipeline sm drv
          ((InitD3D drv (some w) (atInitD3D (some w) : State K)).2.log .InitPipeline)).1
            = .returned hr' →
        FAILED hr' = false →
        inputs = pre ++ .message ⟨WM_QUIT, wParam⟩ :: rest →
        (∀ m, Input.message m ∈ pre → m.message ≠ WM_QUIT) →
        (wWinMain sm drv inputs).1 = .returned (intOfWPARAM wParam)
        ∧ (wParam < 2 ^ 31 → (wWinMain sm drv inputs).1 = .returned wParam)
        ∧ (∀ nExitCode : Int, -2 ^ 31 ≤ nExitCode → nExitCode < 2 ^ 31 →
            wParam = WPARAMofInt nExitCode →
            (wWinMain sm drv inputs).1 = .returned nExitCode)) := by
  refine ⟨?_, ?_, ?_, ?_⟩
  · intro hw
    simp [wWinMain, hw, State.initial]
  · intro w hr hw h1 hf
    rw [wWinMain_after_window sm drv inputs w hw]
    have hcalls := InitD3D_calls_inner drv (some w) (atInitD3D (some w) : State K)
    generalize InitD3D drv (some w) (atInitD3D (some w) : State K) = res at h1 hcalls ⊢
    obtain ⟨o, s⟩ := res
    simp only at h1 hcalls
    subst h1
    simp only [hf, if_true, true_and]
    refine ⟨fun h => ?_, fun h => ?_, fun h => ?_⟩ <;>
      (rcases hcalls _ h with h' | h'
       · rcases atInitD3D_calls _ _ h' with h'' | h'' | h'' | h'' | h'' <;> cases h''
       · cases h')
  · intro w hr hr' hw h1 hok h2 hf
    rw [wWinMain_after_window sm drv inputs w hw]
    have hcalls := InitD3D_calls_inner drv (some w) (atInitD3D (some w) : State K)
    generalize InitD3D drv (some w) (atInitD3D (some w) : State K) = res at h1 h2 hcalls ⊢
    obtain ⟨o, s⟩ := res
    simp only at h1 h2 hcalls
    subst h1
    simp only [hok, if_false, Bool.false_eq_true]
    have hcalls' := InitPipeline_calls_inner sm drv (s.log .InitPipeline)
    generalize InitPipeline sm drv (s.log .InitPipeline) = res' at h2 hcalls' ⊢
    obtain ⟨o', s'⟩ := res'
    simp only at h2 hcalls'
    subst h2
    simp only [hf, if_true, true_and]
    refine ⟨fun h => ?_, fun h => ?_⟩ <;>
      (rcases hcalls' _ h with h' | h'
       · simp only [State.log_calls, List.mem_append, List.mem_singleton] at h'
         rcases h' with h' | h'
         · rcases hcalls _ h' with h'' | h''
           · rcases atInitD3D_calls _ _ h'' with h3 | h3 | h3 | h3 | h3 <;> cases h3
           · cases h''
         · cases h'
       · cases h')
  · intro w hr hr' pre rest wParam hw h1 hok h2 hok' hin hpre
    suffices hmain : (wWinMain sm drv inputs).1 = .returned (intOfWPARAM wParam) by
      refine ⟨hmain, fun hsmall => ?_, fun n hlo hhi hn => ?_⟩
      · rw [hmain, intOfWPARAM_small wParam hsmall]
      · rw [hmain, hn, intOfWPARAM_WPARAMofInt n hlo hhi]
    rw [wWinMain_after_window sm drv inputs w hw]
    obtain ⟨hctx, hsc, _⟩ :=
      InitD3D_succeeded drv (some w) (atInitD3D (some w) : State K) hr h1 hok
    generalize InitD3D drv (some w) (atInitD3D (some w) : State K) = res at h1 h2 hctx hsc ⊢
    obtain ⟨o, s⟩ := res
    simp only at h1 h2 hctx hsc
    subst h1
    simp only [hok, if_false, Bool.false_eq_true]
    obtain ⟨hp1, hp2⟩ := InitPipeline_pointers sm drv (s.log .InitPipeline)
    generalize InitPipeline sm drv (s.log .InitPipeline) = res' at h2 hp1 hp2 ⊢
    obtain ⟨o', s'⟩ := res'
    simp only [State.log_g_pImmediateContext, State.log_g_pSwapChain] at h2 hp1 hp2
    subst h2
    simp only [hok', if_false, Bool.false_eq_true]
    rw [hin]
    exact messageLoop_quit sm wParam rest pre ⟨0, 0⟩ s' (by decide) (by rw [hp1]; exact hctx)
      (by rw [hp2]; exact hsc) hpre

/-- C9 at concrete runs: a normal quit with exit code 7 after one rendered
frame, a missing window, a driver without feature level 11_0, and a shader
file that does not compile. -/
theorem C9_witness :
    (wWinMain realMath workingDriver [.idle 1000, .message ⟨WM_QUIT, 7⟩]).1 = .returned 7
    ∧ (wWinMain realMath windowlessDriver [.idle 1000]).1 = .returned 0
    ∧ ((wWinMain realMath unsupportedDriver [.idle 1000]).1 = .returned 0
        ∧ Call.InitPipeline ∉ (wWinMain realMath unsupportedDriver [.idle 1000]).2.calls
        ∧ Call.PeekMessage ∉ (wWinMain realMath unsupportedDriver [.idle 1000]).2.calls
        ∧ Call.Render ∉ (wWinMain realMath unsupportedDriver [.idle 1000]).2.calls)
    ∧ ((wWinMain realMath brokenShaderDriver [.idle 1000]).1 = .returned 0
        ∧ Call.PeekMessage ∉ (wWinMain realMath brokenShaderDriver [.idle 1000]).2.calls
        ∧ Call.Render ∉ (wWinMain realMath brokenShaderDriver [.idle 1000]).2.calls) :=
  ⟨((C9_wWinMain_exit_codes realMath workingDriver [.idle 1000, .message ⟨WM_QUIT, 7⟩]).2.2.2
      1 0 0 [.idle 1000] [] 7 rfl
      (by simp [InitD3D, workingDriver, atInitD3D, State.initial, FAILED, storeOut, S_OK])
      (by decide)
      (by simp [InitPipeline, InitD3D, workingDriver, atInitD3D, State.initial, FAILED, storeOut,
        S_OK])
      (by decide) rfl (by simp)).1.trans (by decide),
   ((C9_wWinMain_exit_codes realMath windowlessDriver [.idle 1000]).1 rfl).1,
   (C9_wWinMain_exit_codes realMath unsupportedDriver [.idle 1000]).2.1 1 DXGI_ERROR_UNSUPPORTED
      rfl
      (by simp [InitD3D, unsupportedDriver, workingDriver, FAILED, DXGI_ERROR_UNSUPPORTED])
      (by decide),
   (C9_wWinMain_exit_codes realMath brokenShaderDriver [.idle 1000]).2.2.1 1 0 E_FAIL rfl
      (by simp [InitD3D, brokenShaderDriver, workingDriver, atInitD3D, State.initial, FAILED,
        storeOut, S_OK])
      (by decide)
      (by simp [InitPipeline, InitD3D, brokenShaderDriver, workingDriver, atInitD3D,
        State.initial, FAILED, storeOut, S_OK, E_FAIL])
      (by decide)⟩


/-- C10. For every real `t`, the triangle of `vertices` in array order under
the world matrix `XMMatrixRotationY(t)` and the view and projection matrices of
`InitPipeline` is wound clockwise on screen (front-facing, rasterized) exactly
when 1 + 10 cos t > 0, is wound counter-clockwise (culled) exactly when
1 + 10 cos t < 0, and has zero screen area exactly when cos t = -1/10; at
t = π it is counter-clockwise and culled.  This is the triangle `Render` draws
when it runs after a successful `InitPipeline`, with `t` the elapsed
milliseconds of its clock divided by 1000.  At every `t` the three vertices lie
in front of the camera, inside the clip volume. -/
theorem C10_rotating_triangle_is_not_always_visible (t : ℝ) :
    (∃ tri : Triangle ℝ,
      assemble (constantBlock (XMMatrixRotationY realMath t) (initialView realMath)
        (initialProjection realMath)) vertices = some tri
      ∧ (tri.clockwise = true ↔ 0 < 1 + 10 * Real.cos t)
      ∧ (tri.frontFacing = true ↔ 0 < 1 + 10 * Real.cos t)
      ∧ (tri.rasterized = true ↔ 0 < 1 + 10 * Real.cos t)
      ∧ (0 < 1 + 10 * Real.cos t → tri.culled = false)
      ∧ (tri.counterClockwise = true ↔ 1 + 10 * Real.cos t < 0)
      ∧ (tri.culled = true ↔ 1 + 10 * Real.cos t < 0)
      ∧ (tri.signedArea2 = 0 ↔ Real.cos t = -(1 / 10))
      ∧ tri.insideClipVolume = true
      ∧ (0 < tri.pa 3 ∧ 0 < tri.pb 3 ∧ 0 < tri.pc 3))
    ∧ (∃ tri : Triangle ℝ,
      assemble (constantBlock (XMMatrixRotationY realMath Real.pi) (initialView realMath)
        (initialProjection realMath)) vertices = some tri
      ∧ tri.counterClockwise = true ∧ tri.culled = true ∧ tri.rasterized = false)
    ∧ (∀ (s : State ℝ) (timeCur : Nat), s.g_pImmediateContext.isSome = true →
        s.g_View = initialView realMath → s.g_Projection = initialProjection realMath →
        s.vertexBufferData = vertices →
        drawnTriangle (Render realMath timeCur s).2
          = assemble (constantBlock
              (XMMatrixRotationY realMath (((renderClock s.timeStart timeCur).2 : ℝ) / 1000))
              (initialView realMath) (initialProjection realMath)) vertices) := by
  refine ⟨?_, ?_, ?_⟩
  · obtain ⟨tri, h1, _, hin, hw, d, hd, harea⟩ := rotated_signedArea2 t
    have hpos : 0 < tri.signedArea2 ↔ 0 < 1 + 10 * Real.cos t := by
      rw [harea]
      constructor
      · intro h
        by_contra hn
        have : (1 + 10 * Real.cos t) * d ≤ 0 :=
          mul_nonpos_of_nonpos_of_nonneg (not_lt.mp hn) hd.le
        linarith
      · intro h; positivity
    have hneg : tri.signedArea2 < 0 ↔ 1 + 10 * Real.cos t < 0 := by
      rw [harea]
      constructor
      · intro h
        by_contra hn
        have : 0 ≤ (1 + 10 * Real.cos t) * d := mul_nonneg (not_lt.mp hn) hd.le
        linarith
      · intro h; exact mul_neg_of_neg_of_pos h hd
    have hzero : tri.signedArea2 = 0 ↔ Real.cos t = -(1 / 10) := by
      rw [harea, mul_eq_zero]
      constructor
      · rintro (h | h)
        · linarith
        · exact absurd h hd.ne'
      · intro h; left; rw [h]; norm_num
    refine ⟨tri, h1, ?_, ?_, ?_, ?_, ?_, ?_, hzero, hin, hw⟩
    · simp [Triangle.clockwise, hpos]
    · simp [Triangle.frontFacing, Triangle.clockwise, hpos]
    · simp only [Triangle.rasterized, Triangle.culled, Triangle.counterClockwise, hin,
        Bool.true_and, Bool.and_eq_true, Bool.not_eq_true', decide_eq_false_iff_not,
        decide_eq_true_eq, not_lt, ← hpos]
      constructor
      · rintro ⟨h, h'⟩
        exact lt_of_le_of_ne h (Ne.symm h')
      · intro h
        exact ⟨h.le, h.ne'⟩
    · intro h
      have := hpos.mpr h
      simp [Triangle.culled, Triangle.counterClockwise, this.le]
    · simp [Triangle.counterClockwise, hneg]
    · simp [Triangle.culled, Triangle.counterClockwise, hneg]
  · obtain ⟨tri, h1, _, _, _, d, hd, harea⟩ := rotated_signedArea2 Real.pi
    rw [Real.cos_pi] at harea
    have hneg : tri.signedArea2 < 0 := by rw [harea]; nlinarith
    refine ⟨tri, h1, ?_, ?_, ?_⟩
    · simp [Triangle.counterClockwise, hneg]
    · simp [Triangle.culled, Triangle.counterClockwise, hneg]
    · simp [Triangle.rasterized, Triangle.culled, Triangle.counterClockwise, hneg]
  · intro s timeCur hctx hv hp hvb
    obtain ⟨_, _, _, _, hvb', hcb, _⟩ := Render_state realMath timeCur s hctx
    simp only [drawnTriangle, hcb, hvb', hvb, hv, hp]

/-- C10 at the first frame after a successful start-up, with the clock at
1000: `Render` draws the triangle of the rotation by 0, which is rasterized. -/
theorem C10_witness :
    ∃ tri : Triangle ℝ,
      drawnTriangle (Render realMath 1000 (readyState realMath)).2 = some tri
      ∧ tri.rasterized = true := by
  have hs := readyState_spec realMath
  have h := (C10_rotating_triangle_is_not_always_visible 0).2.2 (readyState realMath) 1000
    hs.1 hs.2.2.2.1 hs.2.2.2.2.1 hs.2.2.2.2.2.1
  rw [hs.2.2.2.2.2.2, renderClock_first] at h
  obtain ⟨tri, h1, _, _, hr, _⟩ := (C10_rotating_triangle_is_not_always_visible 0).1
  refine ⟨tri, ?_, hr.mpr (by rw [Real.cos_zero]; norm_num)⟩
  rw [h]
  simpa using h1

end DX11
